import Mathlib

/-!
Verification of the OpenAPI reference generator (`app/api_reference.py`,
`app/docs_agent.py`).

The Python code operates on JSON documents (Python dicts/lists/strings as
parsed from an OpenAPI file).  We embed those values as the inductive type
`Json` below and translate each Python function into a Lean function over
`Json`.  Conventions of the embedding, used consistently throughout:

* Python `None` and JSON `null` are both modelled as `Json.null` (the source
  only ever applies truthiness and `isinstance(_, dict)` tests to them, on
  which the two agree).
* Python dictionaries are modelled as association lists in insertion order
  (`List (String × Json)`); a dict produced by the code never holds a
  repeated key, and `updateAssoc` reproduces `dict.update` (replace in
  place, append new keys at the end).
* `d.get(k)` / `d.get(k, default)` are modelled by `pyGet` / `pyGetD`.
  Applied to a non-dict, Python raises `AttributeError`; the model returns
  the default instead, and every theorem whose truth depends on such a
  fragment carries object-shapedness hypotheses so the model and the code
  agree on the inputs quantified over.
* Python string formatting is modelled by `String.append`; `html.escape`
  (with its default `quote=True`) by the character-wise `htmlEscape`, which
  agrees with the sequential `str.replace` implementation in CPython.
* Character predicates (`str.isalnum`, `str.lower`, …) are modelled by
  Lean's ASCII `Char` functions; the claims under verification only
  exercise ASCII data.
* Unbounded recursion through `$ref` chains (the Python code can recurse
  forever on a cyclic document, see the spec's §9 open question) is
  modelled with an explicit fuel parameter; at fuel 0 the node is returned
  unchanged.  Theorems instantiate or quantify fuel high enough that the
  fuel never runs out on the inputs considered.
-/

inductive Json where
  | null : Json
  | b : Bool → Json
  | num : Int → Json
  | str : String → Json
  | arr : List Json → Json
  | obj : List (String × Json) → Json
deriving Repr

namespace Json

/-- Python truthiness of a JSON value: `None`, `False`, `0`, `""`, `[]`,
`{}` are falsy, everything else truthy. -/
def truthy : Json → Bool
  | .null => false
  | .b x => x
  | .num n => n != 0
  | .str s => s ≠ ""
  | .arr l => !l.isEmpty
  | .obj m => !m.isEmpty

/-- `isinstance(v, dict)`. -/
def isObj : Json → Bool
  | .obj _ => true
  | _ => false

/-- `isinstance(v, str)`. -/
def isStr : Json → Bool
  | .str _ => true
  | _ => false

/-- First binding of a key in an association list (a Python dict never holds
a key twice, so first = only). -/
def lookupKey (m : List (String × Json)) (k : String) : Option Json :=
  match m with
  | [] => none
  | (k', v) :: rest => if k' = k then some v else lookupKey rest k

/-- `k in d` for a dict. -/
def hasKey (m : List (String × Json)) (k : String) : Bool :=
  match m with
  | [] => false
  | (k', _) :: rest => k' = k || hasKey rest k

/-- `d.get(k, default)`: the stored value if the key is present (even when
that value is `None`), otherwise the default.  On a non-dict Python raises;
the model returns the default. -/
def pyGetD : Json → String → Json → Json
  | .obj m, k, dflt => match lookupKey m k with
    | some v => v
    | none => dflt
  | _, _, dflt => dflt

/-- `d.get(k)` (default `None`). -/
def pyGet (j : Json) (k : String) : Json := pyGetD j k .null

/-- `k in d`. On a non-dict the model answers `false` (Python would do a
substring/member test or raise; no claim exercises that). -/
def containsKey : Json → String → Bool
  | .obj m, k => hasKey m k
  | _, _ => false

/-- The entries of a dict (`d.items()`), `[]` for non-dicts. -/
def objEntries : Json → List (String × Json)
  | .obj m => m
  | _ => []

/-- `a or b`: `a` if truthy else `b`. -/
def pyOr (a b : Json) : Json := if a.truthy then a else b

/-- The payload of a JSON string.  The code applies this where Python would
require a `str` (raising `TypeError` otherwise); claims only quantify over
inputs where the value is a string. -/
def jstr : Json → String
  | .str s => s
  | _ => ""

/-- Iteration `for x in v`: list elements for a list, one-character strings
for a string, the keys for a dict, `[]` otherwise (where Python raises). -/
def iter : Json → List Json
  | .arr l => l
  | .str s => s.data.map (fun c => Json.str (String.mk [c]))
  | .obj m => m.map (fun kv => Json.str kv.1)
  | _ => []

/-- The keys of a dict in insertion order. -/
def keys : Json → List String
  | .obj m => m.map (·.1)
  | _ => []

/-- The values of a dict in insertion order (`d.values()`). -/
def values : Json → List Json
  | .obj m => m.map (·.2)
  | _ => []

/-- Python `v == "lit"` for the string literals the source compares with
(`typ == "array"`, `prop_name in required_set`, …): true exactly when `v`
is that string (any non-string value compares unequal to a `str`). -/
def jeqStr : Json → String → Bool
  | .str t, s => t == s
  | _, _ => false

end Json

/-! ### Python dict update semantics

`setKey` is one assignment `d[k] = v`: it replaces the first (= only)
binding of `k`, keeping its position, or appends a fresh binding at the
end.  `updateAssoc` is `d.update(other)`: one assignment per entry of
`other`, in order. -/

def setKey (m : List (String × Json)) (k : String) (v : Json) :
    List (String × Json) :=
  match m with
  | [] => [(k, v)]
  | (k', v') :: rest =>
      if k' = k then (k', v) :: rest else (k', v') :: setKey rest k v

def updateAssoc (m entries : List (String × Json)) : List (String × Json) :=
  entries.foldl (fun acc kv => setKey acc kv.1 kv.2) m

/-! ### Python string helpers -/

/-- `s.lower()` (ASCII). -/
def pyLower (s : String) : String := String.mk (s.data.map Char.toLower)

/-- `s.upper()` (ASCII). -/
def pyUpper (s : String) : String := String.mk (s.data.map Char.toUpper)

/-- Does `pat` occur at the start of `s`? (`str.startswith`). -/
def isPrefixL : List Char → List Char → Bool
  | [], _ => true
  | _ :: _, [] => false
  | p :: ps, c :: cs => p == c && isPrefixL ps cs

def startsWith (s pat : String) : Bool := isPrefixL pat.data s.data

/-- Substring test: does `pat` occur (contiguously) inside `s`?  This is the
formal reading of "the produced string contains …" used by the claims. -/
def occursL (pat : List Char) : List Char → Bool
  | [] => isPrefixL pat []
  | c :: cs => isPrefixL pat (c :: cs) || occursL pat cs

def occursB (pat s : String) : Bool := occursL pat.data s.data

/-- `s.replace(old, new)`: replace every non-overlapping occurrence, left to
right.  (With `old = ""` Python interleaves `new` everywhere; the source
never calls it that way and the model returns `s` unchanged then.) -/
def replaceL (pat rep : List Char) : Nat → List Char → List Char
  | _, [] => []
  | 0, s => s
  | n + 1, c :: cs =>
      if pat ≠ [] && isPrefixL pat (c :: cs) then
        rep ++ replaceL pat rep n (List.drop (pat.length - 1) cs)
      else
        c :: replaceL pat rep n cs

def pyReplace (s pat rep : String) : String :=
  String.mk (replaceL pat.data rep.data s.data.length s.data)

/-- `s.rstrip("/")`: drop every trailing `/`. -/
def rstripSlash (s : String) : String :=
  String.mk ((s.data.reverse.dropWhile (· == '/')).reverse)

/-- `s.strip("-")`: drop every leading and trailing `-`. -/
def stripDash (s : String) : String :=
  String.mk (((s.data.dropWhile (· == '-')).reverse.dropWhile
    (· == '-')).reverse)

/-- `html.escape(s)` (CPython's default `quote=True`): `&`, `<`, `>`, `"`,
`'` become entities.  CPython performs the five `str.replace` passes with
`&` first, which is equivalent to this single character-wise pass. -/
def escapeChar (c : Char) : List Char :=
  if c = '&' then "&amp;".data
  else if c = '<' then "&lt;".data
  else if c = '>' then "&gt;".data
  else if c = '"' then "&quot;".data
  else if c = '\'' then "&#x27;".data
  else [c]

def htmlEscape (s : String) : String :=
  String.mk (s.data.flatMap escapeChar)

/-- `ref.split("/")[-1]`: everything after the last `/` (the whole string
when there is no `/`, empty when the string ends in `/`) — exactly the last
element of Python's `split`. -/
def lastSegment (s : String) : String :=
  String.mk (s.data.foldl (fun acc c => if c = '/' then [] else acc ++ [c]) [])

/-- Code-point comparison of strings, as Python's `<` on `str`. -/
def strLtB (a b : String) : Bool :=
  ltAux a.data b.data
where
  ltAux : List Char → List Char → Bool
    | [], [] => false
    | [], _ :: _ => true
    | _ :: _, [] => false
    | c :: cs, d :: ds =>
        if c.toNat < d.toNat then true
        else if d.toNat < c.toNat then false
        else ltAux cs ds

/-- Stable insertion sort by key, modelling `sorted(d.items())` on a dict
(keys are unique, so comparing keys decides). -/
def insertSortedBy {α : Type} (key : α → String) (x : α) :
    List α → List α
  | [] => [x]
  | y :: rest =>
      if strLtB (key x) (key y) then x :: y :: rest
      else y :: insertSortedBy key x rest

def sortByKey {α : Type} (key : α → String) : List α → List α
  | [] => []
  | x :: rest => insertSortedBy key x (sortByKey key rest)

/-- `str(v)` / `repr(v)` for JSON values, as CPython prints them; only its
truthiness and substring content matter to the source (the `"bearer"`
heuristic in `_has_auth` and `str(content)` for non-dict responses). -/
def pyRepr : Json → String
  | .null => "None"
  | .b true => "True"
  | .b false => "False"
  | .num n => toString n
  | .str s => "'" ++ s ++ "'"
  | .arr l => "[" ++ ", ".intercalate (reprList l) ++ "]"
  | .obj m =>
      "\x7b" ++ ", ".intercalate (reprObj m) ++ "\x7d"
where
  reprList : List Json → List String
    | [] => []
    | x :: xs => pyRepr x :: reprList xs
  reprObj : List (String × Json) → List String
    | [] => []
    | (k, v) :: xs => ("'" ++ k ++ "': " ++ pyRepr v) :: reprObj xs

/-- `str(v)`: like `repr` except a string prints without quotes. -/
def pyStr : Json → String
  | .str s => s
  | v => pyRepr v

/-! ## `app/api_reference.py` -/

namespace App

/-- `_get_schema_by_name`: resolve a schema name from OAS3
(`components.schemas`) or Swagger 2 (`definitions`). -/
def get_schema_by_name (doc : Json) (name : String) : Json :=
  let components := Json.pyOr (doc.pyGetD "components" (Json.obj [])) (Json.obj [])
  let schemas := Json.pyOr (components.pyGetD "schemas" (Json.obj [])) (Json.obj [])
  if schemas.containsKey name then schemas.pyGet name
  else
    let definitions := Json.pyOr (doc.pyGetD "definitions" (Json.obj [])) (Json.obj [])
    definitions.pyGet name

/-- `_resolve_ref`: resolve a `$ref` node to the referenced schema, `null`
(Python `None`) when the name is absent, the node itself when it is not a
dict bearing a string `$ref` with a recognized prefix. -/
def resolve_ref (schema doc : Json) : Json :=
  if ¬ schema.truthy || ¬ schema.isObj then schema
  else
    let ref := schema.pyGet "$ref"
    if ¬ ref.truthy || ¬ ref.isStr then schema
    else if startsWith (Json.jstr ref) "#/components/schemas/" then
      get_schema_by_name doc (lastSegment (Json.jstr ref))
    else if startsWith (Json.jstr ref) "#/definitions/" then
      get_schema_by_name doc (lastSegment (Json.jstr ref))
    else schema

/-- `_schema_type_str`: short type label of a schema.  The Python function
recurses through `array` items; `fuel` bounds that recursion depth (any
fuel larger than the nesting depth of the input gives the Python answer). -/
def schema_type_str : Nat → Json → String
  | 0, _ => "any"
  | fuel + 1, schema =>
    if ¬ schema.truthy then "any"
    else
      let ref := schema.pyGet "$ref"
      if ref.truthy then lastSegment (Json.jstr ref)
      else
        let typ := schema.pyGetD "type" (Json.str "")
        if Json.jeqStr typ "array" then
          let items := schema.pyGetD "items" (Json.obj [])
          let itemRef := if items.isObj then items.pyGet "$ref" else Json.null
          if itemRef.truthy then "array of " ++ lastSegment (Json.jstr itemRef)
          else
            "array of " ++ (if items.isObj then schema_type_str fuel items else "any")
        else if Json.jeqStr typ "object" then "object"
        else if typ.truthy then Json.jstr typ else "any"

/-- `_resolve_schema`: resolve `$ref` and `allOf` to a single schema for
display.  `fuel` bounds the recursion (unbounded in Python, which loops on
a cyclic reference chain); at fuel 0 the node is returned unchanged. -/
def resolve_schema : Nat → Json → Json → Json
  | 0, schema, _ => schema
  | fuel + 1, schema, doc =>
    if ¬ schema.truthy || ¬ schema.isObj then schema
    else if (schema.pyGet "$ref").truthy then
      let resolved := resolve_ref schema doc
      if resolved.truthy then resolve_schema fuel resolved doc else resolved
    else if schema.containsKey "allOf" then
      let all_of := Json.pyOr (schema.pyGet "allOf") (Json.arr [])
      let merged := (Json.iter all_of).foldl
        (fun (acc : List (String × Json) × List Json) part =>
          let part_resolved :=
            if part.isObj then resolve_schema fuel part doc else part
          if part_resolved.isObj then
            (updateAssoc acc.1
               (Json.objEntries
                 (Json.pyOr (part_resolved.pyGet "properties") (Json.obj []))),
             acc.2 ++
               Json.iter
                 (Json.pyOr (part_resolved.pyGet "required") (Json.arr [])))
          else acc)
        ([], [])
      Json.obj [("type", Json.str "object"), ("properties", Json.obj merged.1),
        ("required", Json.arr merged.2)]
    else schema

/-- The header row of `_schema_to_html`'s table. -/
def schemaTableHeader : String :=
  "<thead><tr><th>Field</th><th>Type</th><th>Required</th><th>Description</th></tr></thead><tbody>"

/-- One loop iteration of `_render_schema_properties` (lines 59–81): the
rows contributed by a single `(prop_name, prop_schema)` pair — the main
table row, then a nested table for a resolved `object`, then a nested
table for `array` items.  A non-dict property contributes nothing
(`continue`). -/
def htmlPropRows (nested : Json → Json → String → String) (fuel : Nat)
    (doc : Json) (required_set : List Json) (kv : String × Json) : List String :=
  let prop_name := kv.1
  let prop_schema := kv.2
  if ¬ prop_schema.isObj then []
  else
    let resolved := Json.pyOr (resolve_schema fuel prop_schema doc) prop_schema
    let typ := schema_type_str fuel prop_schema
    let desc := pyReplace
      (Json.jstr (Json.pyOr (resolved.pyGet "description")
        (Json.pyOr (prop_schema.pyGet "description") (Json.str "")))) "\n" " "
    let req := if required_set.any (fun r => Json.jeqStr r prop_name)
      then "required" else "optional"
    let main :=
      "<tr><td><code>" ++ htmlEscape prop_name ++ "</code></td><td><code>" ++
        htmlEscape typ ++ "</code></td><td>" ++ req ++ "</td><td>" ++
        htmlEscape desc ++ "</td></tr>"
    let nestedRows :=
      if resolved.isObj && Json.jeqStr (resolved.pyGet "type") "object" &&
          (resolved.pyGet "properties").truthy then
        let nested_table := nested resolved doc ""
        if nested_table ≠ "" then
          ["<tr><td colspan=\"4\" class=\"nested-schema\">" ++
            nested_table ++ "</td></tr>"]
        else []
      else []
    let itemRows :=
      if Json.jeqStr (prop_schema.pyGet "type") "array" &&
          (prop_schema.pyGet "items").isObj then
        let items := prop_schema.pyGet "items"
        if (items.pyGet "$ref").truthy then []
        else if Json.jeqStr (items.pyGet "type") "object" &&
            (items.pyGet "properties").truthy then
          let nested_table := nested items doc ""
          if nested_table ≠ "" then
            ["<tr><td colspan=\"4\" class=\"nested-schema\">Items: " ++
              nested_table ++ "</td></tr>"]
          else []
        else []
      else []
    main :: (nestedRows ++ itemRows)

/-- The body of `_render_schema_properties`, with the mutual call to
`_schema_to_html` abstracted as `nested` (see `schemaFns` below, which
ties the recursion structurally over the fuel): joins the rows the loop
appends for each property in insertion order. -/
def renderPropsWith (nested : Json → Json → String → String) (fuel : Nat)
    (schema doc : Json) (required_set : List Json) : String :=
  let required_set :=
    if ¬ required_set.isEmpty then required_set
    else Json.iter (Json.pyOr (schema.pyGet "required") (Json.arr []))
  let properties := Json.objEntries (Json.pyOr (schema.pyGet "properties") (Json.obj []))
  String.join (properties.flatMap (htmlPropRows nested fuel doc required_set))

/-- The body of `_schema_to_html`, with the mutual call to
`_render_schema_properties` abstracted as `renderF` and the recursive call
on a referenced sub-schema as `subF`.  The `title` parameter is accepted
and ignored exactly as in the source. -/
def schemaToHtmlWith (renderF : Json → Json → List Json → String)
    (subF : Json → Json → String → String) (fuel : Nat)
    (schema doc : Json) (_title : String) : String :=
  if ¬ schema.truthy then ""
  else
    let resolved := Json.pyOr (resolve_schema fuel schema doc) schema
    if ¬ resolved.isObj then ""
    else if Json.jeqStr (resolved.pyGet "type") "object" ||
        (resolved.pyGet "properties").truthy then
      let required := Json.iter (Json.pyOr (resolved.pyGet "required") (Json.arr []))
      let rows := renderF resolved doc required
      if rows = "" then
        let ref := schema.pyGet "$ref"
        if ref.truthy then
          "<p class=\"schema-ref\">Schema: <code>" ++
            htmlEscape (lastSegment (Json.jstr ref)) ++ "</code></p>"
        else ""
      else
        "<table class=\"schema-table\">" ++ schemaTableHeader ++ rows ++
          "</tbody></table>"
    else
      let ref := schema.pyGet "$ref"
      if ref.truthy then
        let name := lastSegment (Json.jstr ref)
        let sub := get_schema_by_name doc name
        if sub.truthy then subF sub doc name
        else
          "<p class=\"schema-ref\">Schema: <code>" ++ htmlEscape name ++
            "</code></p>"
      else
        "<p class=\"schema-type\">Type: <code>" ++
          htmlEscape (Json.jstr (schema.pyGetD "type" (Json.str "any"))) ++
          "</code></p>"

/-- `(_render_schema_properties, _schema_to_html)` at each fuel level, tied
by structural recursion on the fuel (the Python recursion is unbounded and
can loop on cyclic documents; every claim instantiates or quantifies the
fuel high enough for the inputs considered).  The renderer at fuel `f`
nests tables through the HTML renderer at fuel `f`; the HTML renderer at
fuel `f + 1` renders rows through the renderer at fuel `f` and follows a
named `$ref` at fuel `f`; at fuel 0 the HTML renderer returns `""`. -/
def schemaFns : Nat →
    ((Json → Json → List Json → String) × (Json → Json → String → String))
  | 0 =>
      let h0 : Json → Json → String → String := fun _ _ _ => ""
      (fun schema doc req => renderPropsWith h0 0 schema doc req, h0)
  | n + 1 =>
      let p := schemaFns n
      let h : Json → Json → String → String := fun schema doc title =>
        schemaToHtmlWith (fun s d r => p.1 s d r) (fun s d t => p.2 s d t)
          (n + 1) schema doc title
      (fun schema doc req => renderPropsWith h (n + 1) schema doc req, h)

/-- `_render_schema_properties` at a given fuel. -/
def render_schema_properties (fuel : Nat) (schema doc : Json)
    (required_set : List Json) : String :=
  (schemaFns fuel).1 schema doc required_set

/-- `_schema_to_html` at a given fuel. -/
def schema_to_html (fuel : Nat) (schema doc : Json) (title : String) : String :=
  (schemaFns fuel).2 schema doc title

/-- `_params_list`: parameter table. -/
def params_list (params : Json) : String :=
  if ¬ params.truthy then ""
  else
    let rows := (Json.iter params).map (fun p =>
      let name := htmlEscape (Json.jstr (p.pyGetD "name" (Json.str "")))
      let loc := pyStr (p.pyGetD "in" (Json.str "query"))
      let desc := htmlEscape (pyReplace
        (Json.jstr (Json.pyOr (p.pyGet "description") (Json.str ""))) "\n" " ")
      let required := if (p.pyGet "required").truthy then "required" else "optional"
      "<tr><td><code>" ++ name ++ "</code></td><td>" ++ loc ++ "</td><td>" ++
        required ++ "</td><td>" ++ desc ++ "</td></tr>")
    "<table class=\"schema-table\"><thead><tr><th>Name</th><th>In</th><th>Required</th><th>Description</th></tr></thead><tbody>" ++
      String.join rows ++ "</tbody></table>"

/-- `_response_section`: one response (description + JSON body schema). -/
def response_section (fuel : Nat) (code : String) (content doc : Json) : String :=
  let desc := if content.isObj then Json.jstr (content.pyGetD "description" (Json.str ""))
    else pyStr content
  let head := "<p><strong>" ++ htmlEscape code ++ "</strong>: " ++ htmlEscape desc ++ "</p>"
  let media := Json.pyOr (content.pyGetD "content" (Json.obj [])) (Json.obj [])
  let rest := (Json.objEntries media).foldl (fun parts kv =>
    let media_type := kv.1
    let media_spec := kv.2
    if media_type ≠ "application/json" ∧ media_type ≠ "application/json; charset=utf-8" then
      parts
    else
      let schema := if media_spec.isObj then media_spec.pyGet "schema" else Json.null
      if schema.truthy then
        parts ++ ["<p><em>Response body:</em></p>", schema_to_html fuel schema doc ""]
      else parts) []
  String.join (head :: rest)

/-- `_responses_list`: the `<ul>` of responses. -/
def responses_list (fuel : Nat) (responses doc : Json) : String :=
  if ¬ responses.truthy then ""
  else
    let items := (Json.objEntries responses).map (fun kv =>
      let code := kv.1
      let content := kv.2
      if ¬ content.isObj then
        "<li><strong>" ++ htmlEscape code ++ "</strong>: " ++
          htmlEscape (pyStr content) ++ "</li>"
      else
        "<li class=\"response-block\">" ++ response_section fuel code content doc ++
          "</li>")
    "<ul class=\"response-list\">" ++ String.join items ++ "</ul>"

/-- `_request_body`: description + JSON media-type schema tables. -/
def request_body (fuel : Nat) (body doc : Json) : String :=
  if ¬ body.truthy then ""
  else
    let content := body.pyGetD "content" (Json.obj [])
    if ¬ content.truthy then ""
    else
      let desc := body.pyGetD "description" (Json.str "")
      let descParts := if desc.truthy then ["<p>" ++ htmlEscape (Json.jstr desc) ++ "</p>"] else []
      let parts := (Json.objEntries content).foldl (fun parts kv =>
        let media_type := kv.1
        let media_spec := kv.2
        if media_type ≠ "application/json" ∧ media_type ≠ "application/json; charset=utf-8" then
          parts
        else
          let schema := if media_spec.isObj then media_spec.pyGet "schema" else Json.null
          if schema.truthy then parts ++ [schema_to_html fuel schema doc ""]
          else parts) descParts
      String.join parts

/-- `_slug`: safe HTML id from a string — lowercase, keep alphanumerics and
`-`/`_`, replace everything else with `-`, strip leading/trailing `-`. -/
def slug (s : String) : String :=
  stripDash (String.mk ((pyLower s).data.map
    (fun c => if c.isAlphanum || c = '-' || c = '_' then c else '-')))

/-- `_has_auth`: true iff an entry of the operation's `security` list is a
dict one of whose (stringified) values contains `Bearer`/`bearer`. -/
def has_auth (op : Json) : Bool :=
  (Json.iter (Json.pyOr (op.pyGet "security") (Json.arr []))).any (fun s =>
    s.isObj && (Json.values s).any (fun v =>
      occursB "Bearer" (pyStr v) || occursB "bearer" (pyLower (pyStr v))))

/-- The recognized JSON media types (the tuple the source compares with). -/
def jsonMediaTypes : List String :=
  ["application/json", "application/json; charset=utf-8"]

/-- `_how_to_call`: the "how to call" HTML block. -/
def how_to_call (method path : String) (op : Json) (base_url : String) : String :=
  let full_url := if base_url ≠ "" then rstripSlash base_url ++ path else path
  let needs_auth := has_auth op
  let has_body := (["POST", "PUT", "PATCH"].contains (pyUpper method)) &&
    (op.pyGet "requestBody").truthy
  let parts := ["<div class=\"how-to-call\">", "<p><strong>Request</strong></p>",
    "<pre class=\"request-line\"><span class=\"method method-" ++ pyLower method ++
      "\">" ++ pyUpper method ++ "</span> " ++ htmlEscape full_url ++ "</pre>"]
  let parts :=
    if needs_auth then
      parts ++ ["<p class=\"call-headers\"><strong>Headers</strong></p>",
        if has_body then
          "<pre class=\"code-block\">Authorization: Bearer &lt;your_token&gt;\nContent-Type: application/json</pre>"
        else
          "<pre class=\"code-block\">Authorization: Bearer &lt;your_token&gt;</pre>"]
    else if has_body then
      parts ++ ["<p class=\"call-headers\"><strong>Headers</strong></p>",
        "<pre class=\"code-block\">Content-Type: application/json</pre>"]
    else parts
  let parts :=
    if has_body then
      parts ++ ["<p class=\"call-body\">Send a JSON body; see <strong>Request body</strong> schema below.</p>"]
    else parts
  String.join (parts ++ ["</div>"])

/-- One loop iteration of `_schema_to_data`'s properties loop (lines
241–256): the record for a single `(prop_name, prop_schema)` pair, `none`
for a non-dict property (`continue`).  The description is the property's
own `description` when truthy, else the resolved property schema's. -/
def dataPropRecord (fuel : Nat) (doc : Json) (required : List Json)
    (kv : String × Json) : Option Json :=
  let prop_name := kv.1
  let prop_schema := kv.2
  if ¬ prop_schema.isObj then none
  else
    let typ := schema_type_str fuel prop_schema
    let desc0 := Json.pyOr (prop_schema.pyGet "description") (Json.str "")
    let desc :=
      if desc0.truthy then desc0
      else
        let prop_resolved := resolve_schema fuel prop_schema doc
        if prop_resolved.isObj then
          Json.pyOr (prop_resolved.pyGet "description") (Json.str "")
        else desc0
    some (Json.obj [("name", Json.str prop_name), ("type", Json.str typ),
      ("required", Json.b (required.any (fun r => Json.jeqStr r prop_name))),
      ("description", desc)])

/-- `_schema_to_data`: JSON-serializable representation of a schema. -/
def schema_to_data (fuel : Nat) (schema doc : Json) : Json :=
  if ¬ schema.truthy || ¬ schema.isObj then Json.null
  else
    let resolved := Json.pyOr (resolve_schema fuel schema doc) schema
    if ¬ resolved.isObj then
      Json.obj [("type", Json.str (schema_type_str fuel schema))]
    else if Json.jeqStr (resolved.pyGet "type") "object" ||
        (resolved.pyGet "properties").truthy then
      let required := Json.iter (Json.pyOr (resolved.pyGet "required") (Json.arr []))
      let properties := (Json.objEntries
          (Json.pyOr (resolved.pyGet "properties") (Json.obj []))).filterMap
        (dataPropRecord fuel doc required)
      Json.obj [("type", Json.str "object"), ("properties", Json.arr properties)]
    else
      let ref := schema.pyGet "$ref"
      if ref.truthy then
        Json.obj [("type", Json.str (lastSegment (Json.jstr ref))), ("$ref", ref)]
      else Json.obj [("type", resolved.pyGetD "type" (Json.str "any"))]

/-- `_response_to_data`: one response as data (`code`, `description`,
optional `body_schema` from the first recognized media type). -/
def response_to_data (fuel : Nat) (code : String) (content doc : Json) : Json :=
  let desc := if content.isObj then content.pyGetD "description" (Json.str "")
    else Json.str (pyStr content)
  let base := [("code", Json.str code), ("description", desc)]
  let media := if content.isObj then
      Json.pyOr (content.pyGetD "content" (Json.obj [])) (Json.obj [])
    else Json.obj []
  match jsonMediaTypes.find? (fun mt => media.containsKey mt) with
  | none => Json.obj base
  | some mt =>
      let media_spec := media.pyGet mt
      if media_spec.isObj && (media_spec.pyGet "schema").truthy then
        Json.obj (base ++
          [("body_schema", schema_to_data fuel (media_spec.pyGet "schema") doc)])
      else Json.obj base

/-- `_request_body_to_data`: request body as data (first recognized media
type carrying a truthy schema wins; otherwise `None`). -/
def request_body_to_data (fuel : Nat) (body doc : Json) : Json :=
  if ¬ body.truthy || ¬ body.isObj then Json.null
  else
    let content := Json.pyOr (body.pyGetD "content" (Json.obj [])) (Json.obj [])
    let rec go : List String → Json
      | [] => Json.null
      | mt :: rest =>
          if ¬ content.containsKey mt then go rest
          else
            let media_spec := content.pyGet mt
            if media_spec.isObj && (media_spec.pyGet "schema").truthy then
              Json.obj [("description", body.pyGetD "description" (Json.str "")),
                ("schema", schema_to_data fuel (media_spec.pyGet "schema") doc)]
            else go rest
    go jsonMediaTypes

/-! ### Operation normalization (the two grouping passes shared by the data
and HTML builders; each builder carries its own verbatim copy in the
source, mirrored by `buildByTagData` / `buildByTagHtml` below). -/

/-- One `(path, method, op, endpoint_id)` tuple as grouped into `by_tag`. -/
structure Entry where
  path : String
  method : String
  op : Json
  endpoint_id : String
deriving Repr

/-- `tags[0]` as the source indexes it: first element of a list, first
character of a string (Python string indexing); other types raise in
Python and are modelled as `""`. -/
def jsonIndex0 : Json → String
  | .arr (t :: _) => Json.jstr t
  | .str s => match s.data with
    | c :: _ => String.mk [c]
    | [] => ""
  | _ => ""

/-- Pass-1 tag: `tags = op.get("tags") or ["Other"]; tag = tags[0] if tags
else "Other"`. -/
def tagOf1 (op : Json) : String :=
  let tags := Json.pyOr (op.pyGet "tags") (Json.arr [Json.str "Other"])
  if tags.truthy then jsonIndex0 tags else "Other"

/-- Pass-2 tag: `(op.get("tags") or ["Other"])[0]`. -/
def tagOf2 (op : Json) : String :=
  jsonIndex0 (Json.pyOr (op.pyGet "tags") (Json.arr [Json.str "Other"]))

/-- `by_tag.setdefault(tag, []).append(entry)`: append into the group of
`tag`, creating the group at the end on first use. -/
def addEntry (byTag : List (String × List Entry)) (tag : String) (e : Entry) :
    List (String × List Entry) :=
  match byTag with
  | [] => [(tag, [e])]
  | (t, es) :: rest =>
      if t = tag then (t, es ++ [e]) :: rest else (t, es) :: addEntry rest tag e

/-- The fixed method list of the first grouping pass. -/
def METHODS : List String :=
  ["get", "post", "put", "patch", "delete", "options", "head"]

/-- The keys the second grouping pass skips. -/
def SKIP_KEYS : List String := ["get", "post", "put", "patch", "delete"]

/-- One iteration of the first pass's inner loop (`for m in methods:`,
lines 311–319): emit the operation at fixed method key `method` of
`path_item` when it is a dict. -/
def pass1Step (path : String) (path_item : Json)
    (bt : List (String × List Entry)) (method : String) :
    List (String × List Entry) :=
  let op := path_item.pyGet method
  if ¬ op.isObj then bt
  else
    addEntry bt (tagOf1 op)
      ⟨path, pyUpper method, op, "endpoint-" ++ slug (method ++ "-" ++ path)⟩

/-- First pass: the fixed method list over each sorted path item. -/
def groupPass1 (byTag : List (String × List Entry))
    (sortedPaths : List (String × Json)) : List (String × List Entry) :=
  sortedPaths.foldl (fun bt pv =>
    METHODS.foldl (pass1Step pv.1 pv.2) bt) byTag

/-- One iteration of the second pass's inner loop (`for key, op in
path_item.items():`, lines 322–331): emit a non-skipped key whose value is
a dict carrying a `summary` or `description`. -/
def pass2Step (path : String) (path_item : Json)
    (bt : List (String × List Entry)) (key : String) :
    List (String × List Entry) :=
  if SKIP_KEYS.contains (pyLower key) then bt
  else
    let op := path_item.pyGet key
    if op.isObj && (op.containsKey "summary" || op.containsKey "description") then
      addEntry bt (tagOf2 op)
        ⟨path, pyUpper key, op, "endpoint-" ++ slug (key ++ "-" ++ path)⟩
    else bt

/-- Second pass: non-standard keys of path items that have neither `get`
nor `post`, when the operation carries a `summary` or `description`. -/
def groupPass2 (byTag : List (String × List Entry))
    (sortedPaths : List (String × Json)) : List (String × List Entry) :=
  sortedPaths.foldl (fun bt pv =>
    if pv.2.isObj && ¬ pv.2.containsKey "get" && ¬ pv.2.containsKey "post" then
      (Json.keys pv.2).foldl (pass2Step pv.1 pv.2) bt
    else bt) byTag

/-- The grouping block of `build_api_reference_data` (lines 306–331). -/
def buildByTagData (doc : Json) : List (String × List Entry) :=
  let paths := doc.pyGetD "paths" (Json.obj [])
  let sortedPaths := sortByKey (·.1) (Json.objEntries paths)
  groupPass2 (groupPass1 [] sortedPaths) sortedPaths

/-- The grouping block of `build_api_reference_html` (lines 400–426),
textually identical to the one in `build_api_reference_data`. -/
def buildByTagHtml (doc : Json) : List (String × List Entry) :=
  let paths := doc.pyGetD "paths" (Json.obj [])
  let sortedPaths := sortByKey (·.1) (Json.objEntries paths)
  groupPass2 (groupPass1 [] sortedPaths) sortedPaths

/-- Entries of one tag's group (`by_tag[tag]`). -/
def groupEntries (byTag : List (String × List Entry)) (tag : String) :
    List Entry :=
  match byTag with
  | [] => []
  | (t, es) :: rest => if t = tag then es else groupEntries rest tag

/-- `STACKS` from `app/docs_agent.py`: the eleven `(value, label)` pairs. -/
def STACKS : List (String × String) :=
  [("react-fetch", "React + fetch"), ("react-axios", "React + axios"),
   ("vue3", "Vue 3"), ("nextjs", "Next.js"), ("angular", "Angular"),
   ("svelte", "Svelte"), ("vanilla", "Vanilla JS"),
   ("react-native", "React Native"), ("flutter", "Flutter"),
   ("swift-ios", "Swift (iOS)"), ("kotlin-android", "Kotlin (Android)")]

/-- One endpoint dict of the data payload (the body of the inner loop of
`build_api_reference_data`, lines 339–376). -/
def endpointData (fuel : Nat) (doc : Json) (full_url_base : String) (e : Entry) :
    Json :=
  let op := e.op
  let params := Json.pyOr (op.pyGet "parameters") (Json.arr [])
  let req_body := if (op.pyGet "requestBody").isObj then op.pyGet "requestBody"
    else Json.null
  let responses := Json.pyOr (op.pyGet "responses") (Json.obj [])
  let full_url := if full_url_base ≠ "" then full_url_base ++ e.path else e.path
  let needs_auth := has_auth op
  let has_body := (["POST", "PUT", "PATCH"].contains (pyUpper e.method)) &&
    req_body.truthy
  let parameters_data := (Json.iter params).map (fun p => Json.obj
    [("name", p.pyGetD "name" (Json.str "")),
     ("in", p.pyGetD "in" (Json.str "query")),
     ("required", Json.b (p.pyGet "required").truthy),
     ("description", Json.str (pyReplace
       (Json.jstr (Json.pyOr (p.pyGet "description") (Json.str ""))) "\n" " "))])
  let responses_data := (Json.objEntries responses).map
    (fun cv => response_to_data fuel cv.1 cv.2 doc)
  let request_body_data := if req_body.truthy then
      request_body_to_data fuel req_body doc
    else Json.null
  Json.obj [("endpoint_id", Json.str e.endpoint_id), ("path", Json.str e.path),
    ("method", Json.str e.method),
    ("summary", Json.pyOr (op.pyGet "summary") (Json.str "")),
    ("description", Json.str (pyReplace
      (Json.jstr (Json.pyOr (op.pyGet "description") (Json.str ""))) "\n" "\n")),
    ("how_to_call", Json.obj [("full_url", Json.str full_url),
      ("needs_auth", Json.b needs_auth), ("has_body", Json.b has_body)]),
    ("parameters", Json.arr parameters_data),
    ("request_body_schema", request_body_data),
    ("responses", Json.arr responses_data)]

/-- `build_api_reference_data`: the JSON payload for the docs UI. -/
def build_api_reference_data (fuel : Nat) (doc : Json) (base_url : String) :
    Json :=
  let info := doc.pyGetD "info" (Json.obj [])
  let title := info.pyGetD "title" (Json.str "API Reference")
  let version := info.pyGetD "version" (Json.str "")
  let description := Json.pyOr (info.pyGetD "description" (Json.str "")) (Json.str "")
  let by_tag := buildByTagData doc
  let sorted_tags := sortByKey id (by_tag.map (·.1))
  let full_url_base := if base_url ≠ "" then rstripSlash base_url else ""
  let tags_payload := sorted_tags.map (fun tag =>
    Json.obj [("name", Json.str tag),
      ("endpoints", Json.arr ((groupEntries by_tag tag).map
        (endpointData fuel doc full_url_base)))])
  Json.obj [("title", title), ("version", version), ("description", description),
    ("base_url", Json.str (if full_url_base ≠ "" then full_url_base else base_url)),
    ("tags", Json.arr tags_payload),
    ("stacks", Json.arr (STACKS.map (fun vl =>
      Json.obj [("value", Json.str vl.1), ("label", Json.str vl.2)])))]

/-- `_template_example` from `app/docs_agent.py`: deterministic per-stack
code example.  `has_body` is derived exactly as in the source (`POST`/`PUT`/
`PATCH` and a truthy `body_summary`).  The final fallback for an unknown
stack id calls the function again with `"vanilla"`, which immediately
selects the vanilla branch; the recursion is inlined as the bound
`vanilla` string. -/
def template_example (method path stack : String) (needs_auth : Bool)
    (body_summary base_url : String) : String :=
  let url := rstripSlash base_url ++ path
  let method_upper := pyUpper method
  let has_body := (["POST", "PUT", "PATCH"].contains method_upper) &&
    body_summary ≠ ""
  let vanilla :=
    let headers :=
      (if needs_auth then ["    \"Authorization\": \"Bearer \" + token,"] else []) ++
      (if has_body then ["    \"Content-Type\": \"application/json\","] else [])
    let headers_str := if ¬ headers.isEmpty then "\n".intercalate headers else ""
    let body_line := if has_body then
        "\n  body: JSON.stringify(\x7b /* see request body schema */ \x7d)," else ""
    let mid := if ¬ headers.isEmpty || has_body then
        "\n  headers: \x7b\n" ++ headers_str ++ "\n  \x7d," ++ body_line else ""
    "// Store your JWT after login (e.g. from /api/auth/admin/verify-code)\n" ++
    "const token = \"YOUR_JWT_TOKEN\";\n" ++
    "const url = \"" ++ url ++ "\";\n\n" ++
    "fetch(url, \x7b\n" ++
    "  method: \"" ++ method_upper ++ "\"," ++ mid ++ "\n" ++
    "\x7d)\n" ++
    "  .then((res) => res.json())\n" ++
    "  .then((data) => console.log(data))\n" ++
    "  .catch((err) => console.error(err));"
  if stack = "vanilla" then vanilla
  else if stack = "react-fetch" then
    let body_line := if has_body then "\n      body: JSON.stringify(payload)," else ""
    let auth_headers := if needs_auth then
        "\n      headers: \x7b ...headers, \"Authorization\": `Bearer $\x7btoken\x7d` \x7d,"
      else "\n      headers,"
    "// In your component: get token from auth context or state\n" ++
    "const token = \"YOUR_JWT\"; // e.g. from login response\n" ++
    "const headers = \x7b \"Content-Type\": \"application/json\" \x7d;\n\n" ++
    "const response = await fetch(\"" ++ url ++ "\", \x7b\n" ++
    "  method: \"" ++ method_upper ++ "\"," ++ auth_headers ++ body_line ++ "\n" ++
    "\x7d);\n" ++
    "const data = await response.json();\n" ++
    "if (!response.ok) throw new Error(data?.message || \"Request failed\");"
  else if stack = "react-axios" then
    let auth := if needs_auth then
        "\n  headers: \x7b Authorization: `Bearer $\x7btoken\x7d` \x7d," else ""
    let body_arg := if has_body then "\n  data: payload," else ""
    let base := rstripSlash base_url
    "import axios from \"axios\";\n\n" ++
    "const token = \"YOUR_JWT\";\n" ++
    "const api = axios.create(\x7b\n" ++
    "  baseURL: \"" ++ base ++ "\"," ++ auth ++ "\n" ++
    "\x7d);\n\n" ++
    "const \x7b data \x7d = await api." ++ pyLower method ++ "(\"" ++ path ++
      "\"" ++ body_arg ++ ");"
  else if stack = "vue3" then
    let body_arg := if has_body then ",\n    body: JSON.stringify(payload)" else ""
    let auth_line := if needs_auth then
        "\n      \"Authorization\": `Bearer $\x7btoken\x7d\"," else ""
    "// In setup(): token from pinia/store or inject\n" ++
    "const token = ref(\"YOUR_JWT\");\n" ++
    "const url = \"" ++ url ++ "\";\n\n" ++
    "const response = await fetch(url, \x7b\n" ++
    "  method: \"" ++ method_upper ++ "\",\n" ++
    "  headers: \x7b\n" ++
    "    \"Content-Type\": \"application/json\"," ++ auth_line ++ "\n" ++
    "  \x7d" ++ body_arg ++ "\n" ++
    "\x7d);\n" ++
    "const data = await response.json();"
  else if stack = "nextjs" then
    let body_line := if has_body then "\n  body: JSON.stringify(payload)," else ""
    let auth_headers := if needs_auth then
        "\n    Authorization: `Bearer $\x7btoken\x7d`," else ""
    "// Server Action or route handler: pass token from session/cookies\n" ++
    "const token = \"YOUR_JWT\";\n" ++
    "const res = await fetch(\"" ++ url ++ "\", \x7b\n" ++
    "  method: \"" ++ method_upper ++ "\",\n" ++
    "  headers: \x7b\n" ++
    "    \"Content-Type\": \"application/json\"," ++ auth_headers ++ "\n" ++
    "  \x7d," ++ body_line ++ "\n" ++
    "\x7d);\n" ++
    "const data = await res.json();"
  else if stack = "angular" then
    let body_line := if has_body then "\n    body: payload," else ""
    let auth_headers := if needs_auth then
        "\n    \"Authorization\": `Bearer $\x7bthis.authService.getToken()\x7d`,"
      else ""
    "// In your service: inject HttpClient and AuthService\n" ++
    "const url = \"" ++ url ++ "\";\n" ++
    "this.http.request<YourResponse>(\x7b\n" ++
    "  method: \"" ++ method_upper ++ "\",\n" ++
    "  url,\n" ++
    "  headers: \x7b \"Content-Type\": \"application/json\"" ++ auth_headers ++
      " \x7d," ++ body_line ++ "\n" ++
    "\x7d).subscribe(\x7b next: (data) => ..., error: (err) => ... \x7d);"
  else if stack = "svelte" then
    let body_line := if has_body then ",\n    body: JSON.stringify(payload)" else ""
    let auth_line := if needs_auth then
        "\n      \"Authorization\": `Bearer $\x7btoken\x7d`," else ""
    "// In your component: token from store or prop\n" ++
    "let token = \"YOUR_JWT\";\n" ++
    "const url = \"" ++ url ++ "\";\n" ++
    "const res = await fetch(url, \x7b\n" ++
    "  method: \"" ++ method_upper ++ "\",\n" ++
    "  headers: \x7b\n" ++
    "    \"Content-Type\": \"application/json\"," ++ auth_line ++ "\n" ++
    "  \x7d" ++ body_line ++ "\n" ++
    "\x7d);\n" ++
    "const data = await res.json();"
  else if stack = "react-native" then
    let body_line := if has_body then "\n      body: JSON.stringify(payload)," else ""
    let auth_headers := if needs_auth then
        "\n      headers: \x7b ...headers, Authorization: `Bearer $\x7btoken\x7d` \x7d,"
      else "\n      headers,"
    "// Token from AsyncStorage or auth context\n" ++
    "const token = \"YOUR_JWT\";\n" ++
    "const headers = \x7b \"Content-Type\": \"application/json\" \x7d;\n\n" ++
    "const response = await fetch(\"" ++ url ++ "\", \x7b\n" ++
    "  method: \"" ++ method_upper ++ "\"," ++ auth_headers ++ body_line ++ "\n" ++
    "\x7d);\n" ++
    "const data = await response.json();"
  else if stack = "flutter" then
    let body_line := if has_body then "\n  body: jsonEncode(payload)," else ""
    let auth_line := if needs_auth then "\n  'Authorization': 'Bearer $token'," else ""
    "// token from your auth state / storage\n" ++
    "final token = 'YOUR_JWT';\n" ++
    "final url = Uri.parse('" ++ url ++ "');\n" ++
    "final response = await http.request(\n" ++
    "  url,\n  method: '" ++ method_upper ++ "',\n" ++
    "  headers: \x7b\n" ++
    "    'Content-Type': 'application/json'," ++ auth_line ++ "\n" ++
    "  \x7d," ++ body_line ++ "\n" ++
    ");\n" ++
    "final data = jsonDecode(response.body);"
  else if stack = "swift-ios" then
    let body_line := if has_body then
        "\n    request.httpBody = try? JSONSerialization.data(withJSONObject: payload)"
      else ""
    let auth_line := if needs_auth then
        "\n    request.setValue(\"Bearer \\(token)\", forHTTPHeaderField: \"Authorization\")"
      else ""
    "// token from Keychain or auth manager\n" ++
    "let token = \"YOUR_JWT\"\n" ++
    "let url = URL(string: \"" ++ url ++ "\")!\n" ++
    "var request = URLRequest(url: url)\n" ++
    "request.httpMethod = \"" ++ method_upper ++ "\"\n" ++
    "request.setValue(\"application/json\", forHTTPHeaderField: \"Content-Type\")" ++
      auth_line ++ body_line ++ "\n" ++
    "let (data, _) = try await URLSession.shared.data(for: request)\n" ++
    "let decoded = try JSONDecoder().decode(YourModel.self, from: data)"
  else if stack = "kotlin-android" then
    let body_part := if has_body then
        "\n    .post(payload.toString().toRequestBody(\"application/json\".toMediaType()))"
      else "\n    .method(\"" ++ method_upper ++ "\", null)"
    let auth_line := if needs_auth then
        "\n    .addHeader(\"Authorization\", \"Bearer $token\")" else ""
    "// token from SharedPreferences or auth repository\n" ++
    "val token = \"YOUR_JWT\"\n" ++
    "val request = Request.Builder().url(\"" ++ url ++ "\")" ++ auth_line ++
      body_part ++ "\n" ++
    "    .build()\n" ++
    "val response = client.newCall(request).execute()\n" ++
    "val body = response.body?.string()"
  else vanilla

/-! The outer f-string template of `build_api_reference_html`
(lines 565-795 of the source), split at its four interpolation
slots `title`, `sidebar_html`, `main_html`, `toc_html`. -/

def htmlTplA : String :=
  "<!DOCTYPE html>\n<html lang=\"en\">\n<head>\n    <meta charset=\"UTF-8\">\n    <meta name=\"viewport\" content=\"width=device-width, initial-scale=1.0\">\n    <title>"

def htmlTplB : String :=
  " - API Reference</title>\n    <style>\n        :root \x7b\n            --side-width: 260px;\n            --toc-width: 220px;\n            --topbar-h: 56px;\n            --bg: #0f172a;\n            --bg-sub: #1e293b;\n            --bg-main: #0f172a;\n            --bg-card: #1e293b;\n            --text: #f1f5f9;\n            --text-muted: #94a3b8;\n            --accent: #3b82f6;\n            --accent-hover: #60a5fa;\n            --border: #334155;\n            --font: 'Inter', system-ui, -apple-system, sans-serif;\n        \x7d\n        * \x7b box-sizing: border-box; \x7d\n        .docs-body \x7b margin: 0; font-family: var(--font); line-height: 1.65; color: var(--text); background: var(--bg-main); min-height: 100vh; \x7d\n        .topbar \x7b\n            position: fixed; top: 0; left: 0; right: 0; height: var(--topbar-h); z-index: 200;\n            background: var(--bg); border-bottom: 1px solid var(--border); display: flex; align-items: center; padding: 0 1.5rem; gap: 2rem;\n        \x7d\n        .topbar-logo \x7b color: var(--text); text-decoration: none; font-weight: 700; font-size: 1.1rem; \x7d\n        .topbar-logo:hover \x7b color: var(--accent-hover); \x7d\n        .topbar-tabs \x7b display: flex; gap: 0.5rem; \x7d\n        .topbar-tab \x7b color: var(--text-muted); text-decoration: none; font-size: 0.9rem; padding: 0.4rem 0.75rem; border-radius: 6px; \x7d\n        .topbar-tab:hover \x7b color: var(--text); \x7d\n        .topbar-tab.active \x7b color: var(--accent); font-weight: 500; \x7d\n        .topbar-search \x7b flex: 1; max-width: 320px; \x7d\n        .topbar-search-placeholder \x7b color: var(--text-muted); font-size: 0.875rem; \x7d\n        .topbar-search-placeholder kbd \x7b background: var(--bg-sub); padding: 0.15rem 0.4rem; border-radius: 4px; font-size: 0.75rem; margin-left: 0.25rem; \x7d\n        .topbar-swagger \x7b color: var(--accent); text-decoration: none; font-size: 0.875rem; \x7d\n        .topbar-swagger:hover \x7b color: var(--accent-hover); \x7d\n        .sidebar \x7b\n            width: var(--side-width); position: fixed; top: var(--topbar-h); left: 0; bottom: 0; overflow-y: auto; z-index: 100;\n            background: var(--bg); border-right: 1px solid var(--border); padding: 1rem 0;\n        \x7d\n        .sidebar-category \x7b font-size: 0.7rem; font-weight: 600; letter-spacing: 0.08em; color: var(--text-muted); margin: 1.25rem 1rem 0.5rem; text-transform: uppercase; \x7d\n        .sidebar-list \x7b list-style: none; margin: 0; padding: 0; \x7d\n        .sidebar-list > li \x7b margin: 0; \x7d\n        .sidebar-link \x7b display: flex; align-items: center; gap: 0.5rem; padding: 0.5rem 1rem; color: var(--text-muted); text-decoration: none; font-size: 0.875rem; transition: color 0.15s, background 0.15s; border-left: 3px solid transparent; \x7d\n        .sidebar-link:hover \x7b color: var(--accent-hover); \x7d\n        .sidebar-link-overview \x7b color: var(--text); font-weight: 500; \x7d\n        .sidebar-link.active \x7b color: var(--accent); background: rgba(59,130,246,0.1); border-left-color: var(--accent); \x7d\n        .sidebar-icon \x7b font-size: 0.9rem; opacity: 0.9; \x7d\n        .sidebar-tag-wrap \x7b margin-top: 0.25rem; \x7d\n        .sidebar-tag-toggle \x7b width: 100%; display: flex; align-items: center; gap: 0.5rem; padding: 0.5rem 1rem; background: none; border: none; color: var(--text); font-size: 0.875rem; font-weight: 500; cursor: pointer; text-align: left; font-family: inherit; \x7d\n        .sidebar-tag-toggle:hover \x7b color: var(--accent-hover); \x7d\n        .sidebar-arrow \x7b margin-left: auto; font-size: 0.65rem; transition: transform 0.2s; \x7d\n        .sidebar-tag-wrap.collapsed .sidebar-arrow \x7b transform: rotate(-90deg); \x7d\n        .sidebar-tag-wrap.collapsed .sidebar-sublist \x7b display: none; \x7d\n        .sidebar-sublist \x7b list-style: none; margin: 0; padding: 0 0 0 1.5rem; border-left: 1px solid var(--border); margin-left: 1rem; \x7d\n        .sidebar-sublist .sublink \x7b font-size: 0.8rem; padding: 0.4rem 0.5rem; \x7d\n        .sidebar-sublist .sublink .method \x7b font-size: 0.65rem; margin-right: 0.25rem; \x7d\n        .content-wrap \x7b display: flex; margin-left: var(--side-width); margin-top: var(--topbar-h); min-height: calc(100vh - var(--topbar-h)); \x7d\n        .content \x7b flex: 1; padding: 2rem 2.5rem 4rem; max-width: 52rem; min-width: 0; \x7d\n        .doc-section \x7b margin-bottom: 3rem; \x7d\n        .doc-section h1 \x7b font-size: 1.75rem; margin: 0 0 0.5rem; color: var(--text); font-weight: 600; \x7d\n        .doc-section h2 \x7b font-size: 1.25rem; margin: 2rem 0 1rem; color: var(--text); padding-bottom: 0.5rem; border-bottom: 1px solid var(--border); font-weight: 600; \x7d\n        .doc-section h2.section-title \x7b margin-top: 0; \x7d\n        .doc-section h4 \x7b font-size: 0.9rem; margin: 1.25rem 0 0.5rem; color: var(--text-muted); font-weight: 600; \x7d\n        .version-badge \x7b font-size: 0.85rem; color: var(--text-muted); margin-bottom: 1rem; \x7d\n        .overview-description \x7b margin-bottom: 1.5rem; color: var(--text-muted); line-height: 1.7; \x7d\n        .module-cards \x7b display: grid; grid-template-columns: repeat(auto-fill, minmax(180px, 1fr)); gap: 1rem; margin-top: 1rem; \x7d\n        .module-card \x7b\n            display: block; padding: 1rem 1.25rem; background: var(--bg-card); border: 1px solid var(--border); border-radius: 10px;\n            text-decoration: none; color: var(--text); transition: border-color 0.2s, box-shadow 0.2s;\n        \x7d\n        .module-card:hover \x7b border-color: var(--accent); box-shadow: 0 0 0 1px var(--accent); \x7d\n        .module-card-name \x7b font-weight: 600; display: block; \x7d\n        .module-card-count \x7b font-size: 0.8rem; color: var(--text-muted); \x7d\n        .endpoint-card \x7b\n            background: var(--bg-card); border: 1px solid var(--border); border-radius: 10px; padding: 1.5rem; margin-bottom: 1.5rem;\n        \x7d\n        .endpoint-header \x7b display: flex; align-items: center; gap: 0.75rem; flex-wrap: wrap; margin-bottom: 0.75rem; \x7d\n        .endpoint-path \x7b font-size: 0.9rem; word-break: break-all; background: var(--bg); color: var(--text-muted); padding: 0.25rem 0.5rem; border-radius: 6px; \x7d\n        .method \x7b font-size: 0.65rem; font-weight: 700; padding: 0.2rem 0.4rem; border-radius: 4px; letter-spacing: 0.02em; \x7d\n        .method-get \x7b background: #1e3a5f; color: #7dd3fc; \x7d\n        .method-post \x7b background: #14532d; color: #86efac; \x7d\n        .method-put \x7b background: #431407; color: #fdba74; \x7d\n        .method-patch \x7b background: #4c0519; color: #f9a8d4; \x7d\n        .method-delete \x7b background: #450a0a; color: #fca5a5; \x7d\n        .endpoint-summary \x7b font-weight: 500; margin: 0 0 0.5rem; color: var(--text); \x7d\n        .endpoint-description \x7b color: var(--text-muted); font-size: 0.9rem; margin-bottom: 1rem; \x7d\n        .how-to-call \x7b background: var(--bg); border: 1px solid var(--border); border-radius: 8px; padding: 1rem; margin: 1rem 0; \x7d\n        .how-to-call .request-line \x7b margin: 0 0 0.5rem; font-size: 0.85rem; color: var(--text-muted); \x7d\n        .how-to-call .code-block \x7b background: #0f172a; color: #e2e8f0; padding: 0.75rem 1rem; border-radius: 6px; overflow-x: auto; font-size: 0.8rem; margin: 0.25rem 0 0; border: 1px solid var(--border); \x7d\n        .how-to-call .call-headers \x7b margin: 0.75rem 0 0.25rem; font-size: 0.85rem; color: var(--text-muted); \x7d\n        .how-to-call .call-body \x7b margin: 0.5rem 0 0; font-size: 0.85rem; color: var(--text-muted); \x7d\n        .schema-table \x7b width: 100%; border-collapse: collapse; font-size: 0.85rem; margin: 0.5rem 0; border-radius: 8px; overflow: hidden; border: 1px solid var(--border); \x7d\n        .schema-table th, .schema-table td \x7b text-align: left; padding: 0.5rem 0.75rem; border-bottom: 1px solid var(--border); color: var(--text-muted); \x7d\n        .schema-table th \x7b background: var(--bg); color: var(--text); font-weight: 600; \x7d\n        .schema-table .nested-schema \x7b padding-left: 1rem; border-left: 2px solid var(--border); \x7d\n        ul.response-list \x7b list-style: none; padding: 0; margin: 0; \x7d\n        ul.response-list li.response-block \x7b margin-bottom: 1rem; padding: 1rem; background: var(--bg); border-radius: 8px; border-left: 4px solid var(--accent); color: var(--text-muted); \x7d\n        code \x7b background: var(--bg); color: var(--text-muted); padding: 0.15rem 0.4rem; border-radius: 4px; font-size: 0.85em; border: 1px solid var(--border); \x7d\n        .schema-ref, .schema-type \x7b margin: 0.25rem 0; color: var(--text-muted); font-size: 0.85rem; \x7d\n        .code-example-block \x7b margin: 1.25rem 0; padding: 1rem; background: var(--bg); border: 1px solid var(--border); border-radius: 10px; \x7d\n        .code-example-block h4 \x7b margin-top: 0; color: var(--text); \x7d\n        .code-example-intro \x7b color: var(--text-muted); font-size: 0.875rem; margin: 0 0 0.75rem; \x7d\n        .code-example-tabs-wrap \x7b display: flex; flex-wrap: wrap; gap: 0.5rem; align-items: center; margin-bottom: 0.75rem; \x7d\n        .code-example-tabs \x7b display: flex; flex-wrap: wrap; gap: 0.25rem; align-items: center; \x7d\n        .code-example-tab \x7b padding: 0.35rem 0.65rem; border: 1px solid var(--border); border-radius: 6px; font-size: 0.8rem; background: var(--bg-card); color: var(--text-muted); cursor: pointer; transition: background 0.15s, color 0.15s; \x7d\n        .code-example-tab:hover \x7b color: var(--text); background: var(--bg); \x7d\n        .code-example-tab.code-example-tab-active \x7b background: var(--accent); color: #fff; border-color: var(--accent); \x7d\n        .code-example-btn \x7b padding: 0.45rem 0.9rem; background: var(--accent); color: #fff; border: none; border-radius: 6px; font-size: 0.875rem; font-weight: 500; cursor: pointer; \x7d\n        .code-example-btn:hover \x7b background: var(--accent-hover); \x7d\n        .code-example-btn:disabled \x7b opacity: 0.7; cursor: not-allowed; \x7d\n        .code-example-output \x7b position: relative; margin-top: 0.5rem; \x7d\n        .code-example-pre \x7b background: #0f172a; color: #e2e8f0; padding: 1rem; border-radius: 8px; overflow-x: auto; font-size: 0.8rem; line-height: 1.5; margin: 0; border: 1px solid var(--border); \x7d\n        .code-example-copy \x7b position: absolute; top: 0.5rem; right: 0.5rem; padding: 0.25rem 0.5rem; font-size: 0.75rem; background: var(--border); color: var(--text); border: none; border-radius: 4px; cursor: pointer; \x7d\n        .code-example-copy:hover \x7b background: var(--text-muted); \x7d\n        .code-example-loading \x7b color: var(--text-muted); font-size: 0.875rem; margin-top: 0.5rem; \x7d\n        .code-example-error \x7b color: #f87171; font-size: 0.875rem; margin-top: 0.5rem; \x7d\n        .toc \x7b width: var(--toc-width); min-width: var(--toc-width); padding: 2rem 1rem 2rem 0; position: sticky; top: calc(var(--topbar-h) + 1rem); align-self: flex-start; \x7d\n        .toc-title \x7b font-size: 0.7rem; font-weight: 600; letter-spacing: 0.08em; color: var(--text-muted); margin: 0 0 0.75rem; text-transform: uppercase; \x7d\n        .toc-list \x7b list-style: none; margin: 0; padding: 0; \x7d\n        .toc-link \x7b display: block; padding: 0.35rem 0; color: var(--text-muted); text-decoration: none; font-size: 0.8rem; transition: color 0.15s; \x7d\n        .toc-link:hover \x7b color: var(--accent-hover); \x7d\n        .toc-link.active \x7b color: var(--accent); font-weight: 500; \x7d\n        .toc-sublist \x7b padding-left: 0.75rem; \x7d\n        .toc-sublink \x7b font-size: 0.75rem; \x7d\n        @media (max-width: 1024px) \x7b .toc \x7b display: none; \x7d .content \x7b padding-right: 1.5rem; \x7d \x7d\n        @media (max-width: 768px) \x7b\n            .sidebar \x7b transform: translateX(-100%); transition: transform 0.2s; \x7d\n            .sidebar.open \x7b transform: translateX(0); \x7d\n            .content-wrap \x7b margin-left: 0; \x7d\n            .content \x7b padding: 1rem; \x7d\n        \x7d\n    </style>\n</head>\n<body class=\"docs-body\">\n    "

def htmlTplC : String :=
  "\n    <div class=\"content-wrap\">\n        "

def htmlTplD : String :=
  "\n        "

def htmlTplE : String :=
  "\n    </div>\n    <script>\n        (function() \x7b\n            var links = document.querySelectorAll('.sidebar-link, .sublink');\n            function highlight() \x7b\n                var id = (location.hash || '#overview').slice(1);\n                links.forEach(function(a) \x7b\n                    var href = (a.getAttribute('href') || '').slice(1);\n                    a.classList.toggle('active', href === id);\n                \x7d);\n                document.querySelectorAll('.toc-link').forEach(function(a) \x7b\n                    var dataId = a.getAttribute('data-id');\n                    a.classList.toggle('active', dataId === id);\n                \x7d);\n            \x7d\n            window.addEventListener('hashchange', highlight);\n            window.addEventListener('load', highlight);\n            document.querySelectorAll('.sidebar-tag-toggle').forEach(function(btn) \x7b\n                btn.addEventListener('click', function() \x7b\n                    var wrap = btn.closest('.sidebar-tag-wrap');\n                    wrap.classList.toggle('collapsed');\n                    btn.setAttribute('aria-expanded', wrap.classList.contains('collapsed') ? 'false' : 'true');\n                \x7d);\n            \x7d);\n        \x7d)();\n        (function() \x7b\n            var base = window.location.origin;\n            document.querySelectorAll('.code-example-block').forEach(function(block) \x7b\n                var path = block.getAttribute('data-path');\n                var method = block.getAttribute('data-method');\n                var tabList = block.querySelector('.code-example-tabs');\n                var btn = block.querySelector('.code-example-btn');\n                function getSelectedStack() \x7b\n                    var active = block.querySelector('.code-example-tab.code-example-tab-active');\n                    return active ? active.getAttribute('data-stack') : (tabList && tabList.querySelector('.code-example-tab') && tabList.querySelector('.code-example-tab').getAttribute('data-stack'));\n                \x7d\n                if (tabList) \x7b\n                    tabList.querySelectorAll('.code-example-tab').forEach(function(tab) \x7b\n                        tab.addEventListener('click', function() \x7b\n                            tabList.querySelectorAll('.code-example-tab').forEach(function(t) \x7b t.classList.remove('code-example-tab-active'); t.setAttribute('aria-selected', 'false'); \x7d);\n                            tab.classList.add('code-example-tab-active'); tab.setAttribute('aria-selected', 'true');\n                        \x7d);\n                    \x7d);\n                \x7d\n                var output = block.querySelector('.code-example-output');\n                var codeEl = block.querySelector('.code-example-code');\n                var copyBtn = block.querySelector('.code-example-copy');\n                var loading = block.querySelector('.code-example-loading');\n                var errEl = block.querySelector('.code-example-error');\n                function showOutput(show) \x7b output.hidden = !show; loading.hidden = true; errEl.hidden = true; \x7d\n                function showErr(msg) \x7b errEl.textContent = msg; errEl.hidden = false; loading.hidden = true; output.hidden = true; \x7d\n                btn.addEventListener('click', function() \x7b\n                    btn.disabled = true;\n                    loading.hidden = false;\n                    output.hidden = true;\n                    errEl.hidden = true;\n                    fetch(base + '/api-reference/generate-example', \x7b\n                        method: 'POST',\n                        headers: \x7b 'Content-Type': 'application/json' \x7d,\n                        body: JSON.stringify(\x7b path: path, method: method, stack: getSelectedStack(), base_url: base \x7d)\n                    \x7d).then(function(r) \x7b\n                        return r.json().then(function(d) \x7b\n                            if (!r.ok) return Promise.reject(\x7b detail: d.detail || d.message || r.statusText \x7d);\n                            return d;\n                        \x7d);\n                    \x7d).then(function(d) \x7b\n                        codeEl.textContent = d.code || '';\n                        showOutput(!!d.code);\n                        btn.disabled = false;\n                    \x7d).catch(function(e) \x7b\n                        var msg = (e && (e.detail || e.message)) || 'Failed to generate example';\n                        if (typeof msg === 'object') msg = JSON.stringify(msg);\n                        showErr(msg);\n                        btn.disabled = false;\n                    \x7d);\n                \x7d);\n                copyBtn.addEventListener('click', function() \x7b\n                    var text = codeEl.textContent;\n                    if (text && navigator.clipboard && navigator.clipboard.writeText) \x7b\n                        navigator.clipboard.writeText(text);\n                        copyBtn.textContent = 'Copied!';\n                        setTimeout(function() \x7b copyBtn.textContent = 'Copy'; \x7d, 2000);\n                    \x7d\n                \x7d);\n            \x7d);\n        \x7d)();\n    </script>\n</body>\n</html>"

/-- `s[:n] + ("…" if len(s) > n else "")`: the sidebar/TOC summary
truncation. -/
def truncWithEllipsis (s : String) (n : Nat) : String :=
  String.mk (s.data.take n) ++ (if s.length > n then "…" else "")

/-- The web/mobile stack order of the code-example tabs (the two filtered
sublists of `STACKS`, concatenated). -/
def tabStacks : List (String × String) :=
  (STACKS.filter (fun vl => ["react-fetch", "react-axios", "vue3", "nextjs",
    "angular", "svelte", "vanilla"].contains vl.1)) ++
  (STACKS.filter (fun vl => ["react-native", "flutter", "swift-ios",
    "kotlin-android"].contains vl.1))

/-- `build_api_reference_html`: the complete HTML document (top bar,
sidebar, overview, per-endpoint cards, TOC, and the outer template). -/
def build_api_reference_html (fuel : Nat) (doc : Json) (base_url : String) :
    String :=
  let info := doc.pyGetD "info" (Json.obj [])
  let title := htmlEscape (Json.jstr (info.pyGetD "title" (Json.str "API Reference")))
  let version := htmlEscape (Json.jstr (info.pyGetD "version" (Json.str "")))
  let description0 := info.pyGetD "description" (Json.str "")
  let description := if description0.truthy then
      Json.str (pyReplace (Json.jstr description0) "\n" "<br>\n")
    else description0
  let by_tag := buildByTagHtml doc
  let sorted_tags := sortByKey id (by_tag.map (·.1))
  let sidebar_parts :=
    ["<header class=\"topbar\">",
     "<a href=\"#overview\" class=\"topbar-logo\">" ++ title ++ "</a>",
     "<nav class=\"topbar-tabs\">",
     "<a href=\"#overview\" class=\"topbar-tab active\">Overview</a>",
     (match sorted_tags with
      | t :: _ => "<a href=\"#tag-" ++ slug t ++ "\" class=\"topbar-tab\">API Reference</a>"
      | [] => ""),
     "</nav>",
     "<div class=\"topbar-search\" role=\"search\"><span class=\"topbar-search-placeholder\">Search docs… <kbd>⌘K</kbd></span></div>",
     "<a href=\"/docs\" class=\"topbar-swagger\">Swagger UI</a>",
     "</header>",
     "<aside class=\"sidebar\" id=\"sidebar\">",
     "<nav class=\"sidebar-nav\">",
     "<p class=\"sidebar-category\">GETTING STARTED</p>",
     "<ul class=\"sidebar-list\">",
     "<li><a href=\"#overview\" class=\"sidebar-link sidebar-link-overview\"><span class=\"sidebar-icon\">📖</span> Introduction</a></li>",
     "<li><a href=\"/docs\" class=\"sidebar-link\"><span class=\"sidebar-icon\">▶</span> Try in Swagger</a></li>",
     "</ul>",
     "<p class=\"sidebar-category\">API MODULES</p>",
     "<ul class=\"sidebar-list\">"] ++
    (sorted_tags.flatMap (fun tag =>
      let tag_id := "tag-" ++ slug tag
      let icon := if pyLower tag = "auth" then "🔌"
        else if pyLower tag = "messaging" then "📡" else "📁"
      ["<li class=\"sidebar-tag-wrap\">",
       "<button type=\"button\" class=\"sidebar-tag-toggle\" aria-expanded=\"true\" data-tag=\"" ++
         htmlEscape tag_id ++ "\"><span class=\"sidebar-icon\">" ++ icon ++
         "</span>" ++ htmlEscape tag ++ "<span class=\"sidebar-arrow\">▼</span></button>",
       "<ul class=\"sidebar-sublist\" data-tag=\"" ++ htmlEscape tag_id ++ "\">"] ++
      ((groupEntries by_tag tag).map (fun e =>
        let sb := Json.jstr (Json.pyOr (e.op.pyGet "summary") (Json.str e.path))
        let summary := truncWithEllipsis sb 45
        "<li><a href=\"#" ++ e.endpoint_id ++
          "\" class=\"sidebar-link sublink\" title=\"" ++ htmlEscape e.path ++
          "\"><span class=\"method method-" ++ pyLower e.method ++ "\">" ++
          e.method ++ "</span> " ++ htmlEscape summary ++ "</a></li>")) ++
      ["</ul></li>"])) ++
    ["</ul></nav>", "</aside>"]
  let main_parts :=
    ["<main class=\"content\">",
     "<section id=\"overview\" class=\"doc-section overview-section\">",
     "<h1>Overview</h1>",
     "<p class=\"version-badge\">Version " ++ version ++ "</p>"] ++
    (if description.truthy then
       ["<div class=\"overview-description\">" ++ Json.jstr description ++ "</div>"]
     else []) ++
    ["<h2 id=\"overview-modules\">Modules</h2>",
     "<div class=\"module-cards\">"] ++
    (sorted_tags.map (fun tag =>
      let tag_id := "tag-" ++ slug tag
      let count := (groupEntries by_tag tag).length
      "<a href=\"#" ++ tag_id ++ "\" class=\"module-card\"><span class=\"module-card-name\">" ++
        htmlEscape tag ++ "</span><span class=\"module-card-count\">" ++
        toString count ++ " endpoint" ++ (if count ≠ 1 then "s" else "") ++
        "</span></a>")) ++
    ["</div></section>"] ++
    (sorted_tags.flatMap (fun tag =>
      let tag_id := "tag-" ++ slug tag
      ["<section id=\"" ++ tag_id ++ "\" class=\"doc-section\">",
       "<h2 class=\"section-title\">" ++ htmlEscape tag ++ "</h2>"] ++
      ((groupEntries by_tag tag).flatMap (fun e =>
        let op := e.op
        let summary := htmlEscape (Json.jstr (Json.pyOr (op.pyGet "summary") (Json.str "")))
        let desc0 := Json.pyOr (op.pyGet "description") (Json.str "")
        let desc := if desc0.truthy then
            Json.str (pyReplace (Json.jstr desc0) "\n" "<br>\n")
          else desc0
        let params := Json.pyOr (op.pyGet "parameters") (Json.arr [])
        let req_body := if (op.pyGet "requestBody").isObj then op.pyGet "requestBody"
          else Json.null
        let responses := Json.pyOr (op.pyGet "responses") (Json.obj [])
        ["<article id=\"" ++ e.endpoint_id ++ "\" class=\"endpoint-card\">",
         "<div class=\"endpoint-header\"><span class=\"method method-" ++
           pyLower e.method ++ "\">" ++ e.method ++
           "</span><code class=\"endpoint-path\">" ++ htmlEscape e.path ++
           "</code></div>"] ++
        (if summary ≠ "" then ["<p class=\"endpoint-summary\">" ++ summary ++ "</p>"] else []) ++
        (if desc.truthy then
           ["<div class=\"endpoint-description\">" ++ Json.jstr desc ++ "</div>"]
         else []) ++
        [how_to_call e.method e.path op base_url,
         "<div class=\"code-example-block\" data-path=\"" ++ htmlEscape e.path ++
           "\" data-method=\"" ++ htmlEscape e.method ++ "\">",
         "<h4>Implement in your stack</h4>",
         "<p class=\"code-example-intro\">Choose a framework and generate a ready-to-use example (includes auth and request setup).</p>",
         "<div class=\"code-example-tabs-wrap\">",
         "<div class=\"code-example-tabs\" role=\"tablist\" aria-label=\"Frontend stack\">"] ++
        ((List.range tabStacks.length).zip tabStacks).map (fun ivl =>
          let active := if ivl.1 = 0 then " code-example-tab-active" else ""
          "<button type=\"button\" role=\"tab\" class=\"code-example-tab" ++
            active ++ "\" data-stack=\"" ++ htmlEscape ivl.2.1 ++
            "\" aria-selected=\"" ++ (if ivl.1 = 0 then "true" else "false") ++
            "\">" ++ htmlEscape ivl.2.2 ++ "</button>") ++
        ["</div>",
         "<button type=\"button\" class=\"code-example-btn\">Generate example</button>",
         "</div>",
         "<div class=\"code-example-output\" hidden><pre class=\"code-example-pre\"><code class=\"code-example-code\"></code></pre><button type=\"button\" class=\"code-example-copy\" title=\"Copy\">Copy</button></div>",
         "<div class=\"code-example-loading\" hidden>Generating…</div>",
         "<div class=\"code-example-error\" hidden></div>",
         "</div>"] ++
        (if params.truthy then ["<h4>Parameters</h4>", params_list params] else []) ++
        (if req_body.truthy then ["<h4>Request body</h4>", request_body fuel req_body doc] else []) ++
        (if responses.truthy then ["<h4>Responses</h4>", responses_list fuel responses doc] else []) ++
        ["</article>"])) ++
      ["</section>"])) ++
    ["</main>"]
  let toc_parts :=
    ["<aside class=\"toc\">",
     "<p class=\"toc-title\">On this page</p>",
     "<nav class=\"toc-nav\">",
     "<ul class=\"toc-list\">",
     "<li><a href=\"#overview\" class=\"toc-link\" data-id=\"overview\">Overview</a></li>",
     "<li><a href=\"#overview-modules\" class=\"toc-link\" data-id=\"overview-modules\">Modules</a></li>"] ++
    (sorted_tags.flatMap (fun tag =>
      let tag_id := "tag-" ++ slug tag
      ("<li><a href=\"#" ++ tag_id ++ "\" class=\"toc-link\" data-id=\"" ++
        htmlEscape tag_id ++ "\">" ++ htmlEscape tag ++ "</a></li>") ::
      ((groupEntries by_tag tag).map (fun e =>
        let sb := Json.jstr (Json.pyOr (e.op.pyGet "summary") (Json.str e.path))
        let summary := truncWithEllipsis sb 36
        "<li class=\"toc-sublist\"><a href=\"#" ++ e.endpoint_id ++
          "\" class=\"toc-link toc-sublink\" data-id=\"" ++
          htmlEscape e.endpoint_id ++ "\">" ++ htmlEscape e.method ++ " " ++
          htmlEscape summary ++ "</a></li>")))) ++
    ["</ul></nav></aside>"]
  let toc_html := "\n".intercalate toc_parts
  let sidebar_html := "\n".intercalate sidebar_parts
  let main_html := "\n".intercalate main_parts
  htmlTplA ++ title ++ htmlTplB ++ sidebar_html ++ htmlTplC ++ main_html ++
    htmlTplD ++ toc_html ++ htmlTplE

end App

/-! ## Definitions used by the claim theorems -/

/-- The slug function as the spec words it: "the lowercased input with
every character that is not alphanumeric, `-` or `_` replaced by `-` and
leading/trailing `-` trimmed". -/
def slug_spec (s : String) : String :=
  stripDash (String.mk ((pyLower s).data.map
    (fun c => if c.isAlphanum ∨ c = '-' ∨ c = '_' then c else '-')))

/-- The property-description precedence as the spec words it: "use the
property's own `description` if present; otherwise fall back to the
resolved target schema's `description`". -/
def spec_prop_description (fuel : Nat) (prop doc : Json) : Json :=
  let own := Json.pyOr (prop.pyGet "description") (Json.str "")
  if own.truthy then own
  else
    let resolved := App.resolve_schema fuel prop doc
    if resolved.isObj then Json.pyOr (resolved.pyGet "description") (Json.str "")
    else own

/-- The property-description formula the HTML projection actually uses
(line 64 of `api_reference.py`): the *resolved* target schema's
description first, the property's own sibling description only as a
fallback — the reverse of [spec_prop_description]. -/
def html_prop_description (fuel : Nat) (prop doc : Json) : Json :=
  let resolved := Json.pyOr (App.resolve_schema fuel prop doc) prop
  Json.pyOr (resolved.pyGet "description")
    (Json.pyOr (prop.pyGet "description") (Json.str ""))

/-- All entries of a `by_tag` grouping, flattened. -/
def allEntries (bt : List (String × List App.Entry)) : List App.Entry :=
  bt.flatMap (·.2)

/-- Number of entries matching `p` that one fixed-method key of one path
item contributes in the first grouping pass (0 or 1). -/
def pass1Contrib (p : App.Entry → Bool) (pv : String × Json) (mth : String) :
    Nat :=
  if ((pv.2.pyGet mth).isObj &&
      p ⟨pv.1, pyUpper mth, pv.2.pyGet mth,
        "endpoint-" ++ App.slug (mth ++ "-" ++ pv.1)⟩) then 1 else 0

/-- Number of entries matching `p` that one key of one path item
contributes in the second grouping pass (0 or 1). -/
def pass2Contrib (p : App.Entry → Bool) (pv : String × Json) (key : String) :
    Nat :=
  if (!(App.SKIP_KEYS.contains (pyLower key)) &&
      ((pv.2.pyGet key).isObj &&
        ((pv.2.pyGet key).containsKey "summary" ||
          (pv.2.pyGet key).containsKey "description")) &&
      p ⟨pv.1, pyUpper key, pv.2.pyGet key,
        "endpoint-" ++ App.slug (key ++ "-" ++ pv.1)⟩) then 1 else 0

/-- Tag names exposed by the data payload. -/
def dataTagNames (payload : Json) : List String :=
  (Json.iter (payload.pyGet "tags")).map (fun t => Json.jstr (t.pyGet "name"))

/-- `(method, path)` pairs exposed by the data payload. -/
def dataMethodPathPairs (payload : Json) : List (String × String) :=
  (Json.iter (payload.pyGet "tags")).flatMap (fun t =>
    (Json.iter (t.pyGet "endpoints")).map (fun ep =>
      (Json.jstr (ep.pyGet "method"), Json.jstr (ep.pyGet "path"))))

/-- `(method, path)` pairs the HTML render enumerates (its `by_tag`
entries, which drive the sidebar, the endpoint cards and the TOC). -/
def htmlMethodPathPairs (doc : Json) : List (String × String) :=
  (allEntries (App.buildByTagHtml doc)).map (fun e => (e.method, e.path))

/-- Tag names the HTML render enumerates. -/
def htmlTagNames (doc : Json) : List String :=
  (App.buildByTagHtml doc).map (·.1)

/-- The endpoint dicts of the data payload, flattened. -/
def dataEndpointsOf (payload : Json) : List Json :=
  (Json.iter (payload.pyGet "tags")).flatMap (fun t => Json.iter (t.pyGet "endpoints"))

/-- The `how_to_call.has_body` field of an endpoint dict. -/
def endpointHasBody (ep : Json) : Json := (ep.pyGet "how_to_call").pyGet "has_body"

/-- Does a request body's `content` carry at least one of the two
recognized JSON media types?  (The condition the claim says gates
`has_body`.) -/
def requestBodyHasJsonMedia (body : Json) : Bool :=
  App.jsonMediaTypes.any (fun mt => (body.pyGet "content").containsKey mt)

/-- A non-empty Python dict (the truthiness `bool(req_body)` actually
tests once `req_body` is dict-or-`None`). -/
def isNonEmptyObj : Json → Bool
  | .obj (_ :: _) => true
  | _ => false

/-- A document whose info description is an HTML/script payload; `paths`
is absent (no endpoints). -/
def xssPayload : String := "<script>alert(1)</script>"

def docC1 : Json := Json.obj [("info", Json.obj
  [("title", Json.str "Pets API"), ("version", Json.str "1.0"),
   ("description", Json.str xssPayload)])]

/-- A `POST` operation whose request body has only an `application/xml`
media type (no recognized JSON media type). -/
def docC2Body : Json := Json.obj [("content", Json.obj
  [("application/xml", Json.obj [("schema", Json.obj [("type", Json.str "object")])])])]

def docC2 : Json := Json.obj [("paths", Json.obj
  [("/widgets", Json.obj [("post", Json.obj [("requestBody", docC2Body)])])])]

/-- A schema property that is a `$ref` with its own sibling description;
the referenced target also carries a description. -/
def docC3 : Json := Json.obj [("components", Json.obj [("schemas", Json.obj
  [("T", Json.obj [("type", Json.str "string"),
    ("description", Json.str "target-desc")])])])]

def propC3 : Json := Json.obj [("$ref", Json.str "#/components/schemas/T"),
  ("description", Json.str "own-desc")]

def schemaC3 : Json := Json.obj [("type", Json.str "object"),
  ("properties", Json.obj [("p", propC3)])]

/-- A path item carrying both a standard `get` operation and a custom
`purge` key with a summary. -/
def docC4 : Json := Json.obj [("paths", Json.obj [("/x", Json.obj
  [("get", Json.obj [("summary", Json.str "g")]),
   ("purge", Json.obj [("summary", Json.str "p"),
     ("tags", Json.arr [Json.str "T"])])])])]

/-- A path item whose only operation is `options` (no `get`, no `post`),
with a summary. -/
def docC10 : Json := Json.obj [("paths", Json.obj [("/x", Json.obj
  [("options", Json.obj [("summary", Json.str "s")])])])]

/-- Auth-header marker: the output mentions both `Authorization` and
`Bearer`. -/
def authMarker (s : String) : Bool :=
  occursB "Authorization" s && occursB "Bearer" s

/-- Body-serialization marker: one of the serialization calls the eleven
templates use when a body is present. -/
def bodyMarker (s : String) : Bool :=
  occursB "JSON.stringify" s || occursB "data: payload" s ||
  occursB "body: payload" s || occursB "jsonEncode(" s ||
  occursB "JSONSerialization" s || occursB "toRequestBody" s

/-- The three gates of one synthesized example at the representative
request `method /items/{id}` against `https://api.x.com`: auth marker iff
`needs_auth`, body marker iff `has_body`, and the URL/method placement —
the full URL and the uppercased method for every stack except
`react-axios` (base URL and path appear separately, the method as the
lowercase axios call, and the concatenated URL never appears) and
`kotlin-android` with a body (which issues `.post` instead of the
requested method). -/
def gateCheckFor (stack method bsum : String) (na : Bool) : Bool :=
  let out := App.template_example method "/items/\x7bid\x7d" stack na bsum
    "https://api.x.com"
  let has_body := (["POST", "PUT", "PATCH"].contains (pyUpper method)) &&
    bsum ≠ ""
  (authMarker out == na) && (bodyMarker out == has_body) &&
  (if stack == "react-axios" then
    occursB "https://api.x.com" out && occursB "/items/\x7bid\x7d" out &&
    !(occursB "https://api.x.com/items/\x7bid\x7d" out) &&
    occursB ("api." ++ pyLower method ++ "(") out
  else
    occursB "https://api.x.com/items/\x7bid\x7d" out &&
    (if stack == "kotlin-android" && has_body then occursB ".post(" out
     else occursB (pyUpper method) out))

/-- The gates over every stack id, both auth flags, and request shapes
covering `has_body` true (`post`/`put` with a body summary) and false
(`get` with one, `post` without one). -/
def gateCombos : List (String × String) :=
  [("get", "name"), ("post", "name"), ("put", "name"), ("post", "")]

/-- The gates for one stack over both auth flags and all request shapes. -/
def stackGates (st : String) : Bool :=
  [true, false].all (fun na =>
    gateCombos.all (fun mb => gateCheckFor st mb.1 mb.2 na))

def exampleGates : Bool :=
  (App.STACKS.map (·.1)).all stackGates


/-- The merged node the `allOf` branch of `_resolve_schema` produces:
`{"type": "object", "properties": P, "required": R}`. -/
def mergedNode (P : List (String × Json)) (R : List Json) : Json :=
  Json.obj [("type", Json.str "object"), ("properties", Json.obj P),
    ("required", Json.arr R)]

/-- A pure `allOf` node. -/
def allOfNode (parts : List Json) : Json := Json.obj [("allOf", Json.arr parts)]

/-- A pure `$ref` node. -/
def refNode (r : String) : Json := Json.obj [("$ref", Json.str r)]

/-- The unresolvable-reference placeholder fragment of `_schema_to_html`. -/
def placeholderHtml (name : String) : String :=
  "<p class=\"schema-ref\">Schema: <code>" ++ htmlEscape name ++ "</code></p>"

/-- `components.schemas` as `_get_schema_by_name` reads it. -/
def schemasOf (doc : Json) : Json :=
  Json.pyOr ((Json.pyOr (doc.pyGetD "components" (Json.obj []))
    (Json.obj [])).pyGetD "schemas" (Json.obj [])) (Json.obj [])

/-- `definitions` as `_get_schema_by_name` reads it. -/
def definitionsOf (doc : Json) : Json :=
  Json.pyOr (doc.pyGetD "definitions" (Json.obj [])) (Json.obj [])

/-- One `allOf` branch, resolved as the merge loop resolves it. -/
def resolvedBranch (fuel : Nat) (doc part : Json) : Json :=
  if part.isObj then App.resolve_schema fuel part doc else part

/-- The loop body of the `allOf` merge, acting on the `(properties,
required)` accumulator pair exactly as the source's loop does. -/
def mergeFoldStep (fuel : Nat) (doc : Json)
    (acc : List (String × Json) × List Json) (part : Json) :
    List (String × Json) × List Json :=
  let part_resolved := resolvedBranch fuel doc part
  if part_resolved.isObj then
    (updateAssoc acc.1 (Json.objEntries
       (Json.pyOr (part_resolved.pyGet "properties") (Json.obj []))),
     acc.2 ++ Json.iter (Json.pyOr (part_resolved.pyGet "required") (Json.arr [])))
  else acc

/-- The properties component of the merge loop. -/
def mergePropsStep (fuel : Nat) (doc : Json) (acc : List (String × Json))
    (part : Json) : List (String × Json) :=
  let pr := resolvedBranch fuel doc part
  if pr.isObj then
    updateAssoc acc (Json.objEntries (Json.pyOr (pr.pyGet "properties") (Json.obj [])))
  else acc

/-- The required component of the merge loop. -/
def mergeReqStep (fuel : Nat) (doc : Json) (acc : List Json) (part : Json) :
    List Json :=
  let pr := resolvedBranch fuel doc part
  if pr.isObj then
    acc ++ Json.iter (Json.pyOr (pr.pyGet "required") (Json.arr []))
  else acc

/-- The merged property union: later branches override earlier ones. -/
def allOfMergedProps (fuel : Nat) (doc : Json) (parts : List Json) :
    List (String × Json) :=
  parts.foldl (mergePropsStep fuel doc) []

/-- The merged required list: the branches' lists concatenated. -/
def allOfMergedReq (fuel : Nat) (doc : Json) (parts : List Json) : List Json :=
  parts.foldl (mergeReqStep fuel doc) []

/-! ## Helper lemmas -/

theorem isPrefixL_append (p l b : List Char) (h : isPrefixL p l = true) :
    isPrefixL p (l ++ b) = true := by
  induction p generalizing l with
  | nil => rfl
  | cons x xs ih =>
    cases l with
    | nil => simp [isPrefixL] at h
    | cons c cs =>
      simp only [isPrefixL, Bool.and_eq_true] at h ⊢
      exact ⟨h.1, ih cs h.2⟩

theorem occursL_append_right (p a b : List Char) (h : occursL p b = true) :
    occursL p (a ++ b) = true := by
  induction a with
  | nil => exact h
  | cons c cs ih =>
    simp only [List.cons_append, occursL, Bool.or_eq_true]
    exact Or.inr ih

theorem occursL_append_left (p a b : List Char) (h : occursL p a = true) :
    occursL p (a ++ b) = true := by
  induction a with
  | nil =>
    cases p with
    | nil =>
      cases b with
      | nil => rfl
      | cons d ds => simp [occursL, isPrefixL]
    | cons x xs => simp [occursL, isPrefixL] at h
  | cons c cs ih =>
    simp only [occursL, Bool.or_eq_true] at h
    simp only [List.cons_append, occursL, Bool.or_eq_true]
    cases h with
    | inl h =>
      exact Or.inl (by
        have := isPrefixL_append p (c :: cs) b h
        simpa using this)
    | inr h => exact Or.inr (ih h)

theorem string_data_append (a b : String) : (a ++ b).data = a.data ++ b.data := by
  cases a; cases b; rfl

theorem occursB_append_left (p a b : String) (h : occursB p a = true) :
    occursB p (a ++ b) = true := by
  unfold occursB at h ⊢
  rw [string_data_append]
  exact occursL_append_left _ _ _ h

theorem occursB_append_right (p a b : String) (h : occursB p b = true) :
    occursB p (a ++ b) = true := by
  unfold occursB at h ⊢
  rw [string_data_append]
  exact occursL_append_right _ _ _ h

theorem toLower_not_upper (c : Char) : (Char.toLower c).isUpper = false := by
  unfold Char.toLower
  by_cases h : c.toNat ≥ 65 ∧ c.toNat ≤ 90
  · rw [if_pos h]
    obtain ⟨h1, h2⟩ := h
    set n := c.toNat with hn
    interval_cases n <;> decide
  · rw [if_neg h]
    have hv : c.isUpper = (decide (65 ≤ c.val) && decide (c.val ≤ 90)) := rfl
    rw [hv]
    have e1 : (65 ≤ c.val) ↔ (65 ≤ c.toNat) := Iff.rfl
    have e2 : (c.val ≤ 90) ↔ (c.toNat ≤ 90) := Iff.rfl
    simp only [Bool.and_eq_false_iff, decide_eq_false_iff_not, e1, e2]
    omega

theorem toLower_alnum_lower_or_digit (c : Char)
    (h : (Char.toLower c).isAlphanum = true) :
    (Char.toLower c).isLower = true ∨ (Char.toLower c).isDigit = true := by
  have hu := toLower_not_upper c
  unfold Char.isAlphanum Char.isAlpha at h
  rw [hu] at h
  simpa [Bool.or_eq_true] using h

theorem hasKey_append (a b : List (String × Json)) (k : String) :
    Json.hasKey (a ++ b) k = (Json.hasKey a k || Json.hasKey b k) := by
  induction a with
  | nil => simp [Json.hasKey]
  | cons kv rest ih => simp [Json.hasKey, ih, Bool.or_assoc]

theorem lookupKey_eq_none_of_hasKey_false (m : List (String × Json)) (k : String)
    (h : Json.hasKey m k = false) : Json.lookupKey m k = none := by
  induction m with
  | nil => rfl
  | cons kv rest ih =>
    simp only [Json.hasKey, Bool.or_eq_false_iff, decide_eq_false_iff_not] at h
    simp only [Json.lookupKey, if_neg h.1]
    exact ih h.2

theorem pyGet_null_of_containsKey_false (j : Json) (k : String)
    (h : j.containsKey k = false) : j.pyGet k = Json.null := by
  cases j with
  | obj m =>
    simp only [Json.containsKey] at h
    simp only [Json.pyGet, Json.pyGetD, lookupKey_eq_none_of_hasKey_false m k h]
  | null => rfl
  | b x => rfl
  | num x => rfl
  | str x => rfl
  | arr x => rfl

theorem setKey_eq_append_of_hasKey_false (m : List (String × Json)) (k : String)
    (v : Json) (h : Json.hasKey m k = false) : setKey m k v = m ++ [(k, v)] := by
  induction m with
  | nil => rfl
  | cons kv rest ih =>
    simp only [Json.hasKey, Bool.or_eq_false_iff, decide_eq_false_iff_not] at h
    simp only [setKey, if_neg h.1, List.cons_append, List.cons.injEq, true_and]
    exact ih h.2

theorem mem_keys_setKey (m : List (String × Json)) (k : String) (v : Json)
    (x : String) (h : x ∈ (setKey m k v).map (·.1)) :
    x ∈ m.map (·.1) ∨ x = k := by
  induction m with
  | nil =>
    simp only [setKey, List.map_cons, List.map_nil, List.mem_singleton] at h
    exact Or.inr h
  | cons kv rest ih =>
    by_cases hkk : kv.1 = k
    · obtain ⟨k', v'⟩ := kv
      simp only at hkk
      simp only [setKey, if_pos hkk, List.map_cons, List.mem_cons] at h ⊢
      tauto
    · obtain ⟨k', v'⟩ := kv
      simp only at hkk
      simp only [setKey, if_neg hkk, List.map_cons, List.mem_cons] at h ⊢
      rcases h with h | h
      · exact Or.inl (Or.inl h)
      · rcases ih h with h' | h'
        · exact Or.inl (Or.inr h')
        · exact Or.inr h'

theorem nodupKeys_setKey (m : List (String × Json)) (k : String) (v : Json)
    (h : (m.map (·.1)).Nodup) : ((setKey m k v).map (·.1)).Nodup := by
  induction m with
  | nil => simp [setKey]
  | cons kv rest ih =>
    obtain ⟨k', v'⟩ := kv
    simp only [List.map_cons, List.nodup_cons] at h
    by_cases hkk : k' = k
    · simp only [setKey, if_pos hkk, List.map_cons, List.nodup_cons]
      exact h
    · simp only [setKey, if_neg hkk, List.map_cons, List.nodup_cons]
      refine ⟨fun hmem => ?_, ih h.2⟩
      rcases mem_keys_setKey rest k v k' hmem with h' | h'
      · exact h.1 h'
      · exact hkk h'

theorem nodupKeys_updateAssoc (entries m : List (String × Json))
    (h : (m.map (·.1)).Nodup) : ((updateAssoc m entries).map (·.1)).Nodup := by
  induction entries generalizing m with
  | nil => exact h
  | cons e es ih =>
    simp only [updateAssoc, List.foldl_cons]
    exact ih (setKey m e.1 e.2) (nodupKeys_setKey m e.1 e.2 h)

theorem updateAssoc_of_disjoint (entries m : List (String × Json))
    (hdisj : ∀ x ∈ entries.map (·.1), Json.hasKey m x = false)
    (hnd : (entries.map (·.1)).Nodup) : updateAssoc m entries = m ++ entries := by
  induction entries generalizing m with
  | nil => simp [updateAssoc]
  | cons e es ih =>
    obtain ⟨k, v⟩ := e
    simp only [List.map_cons, List.nodup_cons] at hnd
    have hk : Json.hasKey m k = false := hdisj k (by simp)
    simp only [updateAssoc, List.foldl_cons]
    have hset : setKey m k v = m ++ [(k, v)] :=
      setKey_eq_append_of_hasKey_false m k v hk
    rw [hset]
    have := ih (m ++ [(k, v)]) (fun x hx => by
      rw [hasKey_append]
      have h1 : Json.hasKey m x = false := hdisj x (by simp [hx])
      have h2 : Json.hasKey [(k, v)] x = false := by
        simp only [Json.hasKey, Bool.or_false, decide_eq_false_iff_not]
        intro hkx
        exact hnd.1 (hkx ▸ hx)
      rw [h1, h2]
      rfl) hnd.2
    simp only [updateAssoc] at this
    rw [this, List.append_assoc]
    rfl

theorem updateAssoc_nil (entries : List (String × Json))
    (hnd : (entries.map (·.1)).Nodup) : updateAssoc [] entries = entries := by
  have := updateAssoc_of_disjoint entries [] (fun x _ => rfl) hnd
  simpa using this

theorem nodupKeys_foldl_mergeProps (fuel : Nat) (doc : Json) (parts : List Json)
    (acc : List (String × Json)) (h : (acc.map (·.1)).Nodup) :
    (((parts.foldl (mergePropsStep fuel doc) acc)).map (·.1)).Nodup := by
  induction parts generalizing acc with
  | nil => exact h
  | cons x xs ih =>
    simp only [List.foldl_cons]
    apply ih
    unfold mergePropsStep
    by_cases hx : (resolvedBranch fuel doc x).isObj = true
    · simp only [hx, if_true]
      exact nodupKeys_updateAssoc _ acc h
    · simp only [hx]
      simpa [hx] using h

theorem nodup_allOfMergedProps (fuel : Nat) (doc : Json) (parts : List Json) :
    ((allOfMergedProps fuel doc parts).map (·.1)).Nodup :=
  nodupKeys_foldl_mergeProps fuel doc parts [] (by simp)

theorem mergeFold_split (fuel : Nat) (doc : Json) (parts : List Json)
    (p : List (String × Json)) (q : List Json) :
    parts.foldl (mergeFoldStep fuel doc) (p, q) =
      (parts.foldl (mergePropsStep fuel doc) p,
       parts.foldl (mergeReqStep fuel doc) q) := by
  induction parts generalizing p q with
  | nil => rfl
  | cons x xs ih =>
    simp only [List.foldl_cons]
    by_cases hx : (resolvedBranch fuel doc x).isObj = true
    · simp only [mergeFoldStep, mergePropsStep, mergeReqStep, hx, if_true]
      exact ih _ _
    · simp only [mergeFoldStep, mergePropsStep, mergeReqStep, hx]
      simpa [hx] using ih p q

theorem resolve_mergedNode (fuel : Nat) (doc : Json)
    (P : List (String × Json)) (R : List Json) :
    App.resolve_schema fuel (mergedNode P R) doc = mergedNode P R := by
  cases fuel with
  | zero => rfl
  | succ n => rfl

theorem objEntries_pyOr_obj (P : List (String × Json)) :
    Json.objEntries (Json.pyOr (Json.obj P) (Json.obj [])) = P := by
  cases P with
  | nil => rfl
  | cons x xs => rfl

theorem iter_pyOr_arr (R : List Json) :
    Json.iter (Json.pyOr (Json.arr R) (Json.arr [])) = R := by
  cases R with
  | nil => rfl
  | cons x xs => rfl

theorem resolve_allOf (fuel : Nat) (doc : Json) (m : List (String × Json))
    (h1 : ((Json.obj m).pyGet "$ref").truthy = false)
    (h2 : (Json.obj m).containsKey "allOf" = true) :
    App.resolve_schema (fuel + 1) (Json.obj m) doc =
      mergedNode
        (allOfMergedProps fuel doc
          (Json.iter (Json.pyOr ((Json.obj m).pyGet "allOf") (Json.arr []))))
        (allOfMergedReq fuel doc
          (Json.iter (Json.pyOr ((Json.obj m).pyGet "allOf") (Json.arr [])))) := by
  have hm : m ≠ [] := by
    intro h
    subst h
    simp [Json.containsKey, Json.hasKey] at h2
  have htr : (Json.obj m).truthy = true := by
    cases m with
    | nil => exact absurd rfl hm
    | cons a l => rfl
  have hobj : (Json.obj m).isObj = true := rfl
  simp only [App.resolve_schema, htr, hobj, h1, h2]
  norm_num
  show Json.obj [("type", Json.str "object"),
    ("properties", Json.obj
      (((Json.iter (Json.pyOr ((Json.obj m).pyGet "allOf") (Json.arr []))).foldl
        (mergeFoldStep fuel doc) ([], [])).1)),
    ("required", Json.arr
      (((Json.iter (Json.pyOr ((Json.obj m).pyGet "allOf") (Json.arr []))).foldl
        (mergeFoldStep fuel doc) ([], [])).2))] = _
  rw [mergeFold_split]
  rfl

/-- C6: the `allOf` branch of `resolve_schema` merges the resolved
branches into a single object node — properties unioned with later
branches overriding, required lists concatenated — and the merge is
associative: merging `[A, B, C]` equals merging `[merge(A, B), C]`
(the full merged nodes coincide, property lists and required lists
included). -/
theorem C6_allOf_merge_associative (fuel : Nat) (doc : Json) :
    (∀ m : List (String × Json),
      ((Json.obj m).pyGet "$ref").truthy = false →
      (Json.obj m).containsKey "allOf" = true →
      App.resolve_schema (fuel + 1) (Json.obj m) doc =
        mergedNode
          (allOfMergedProps fuel doc
            (Json.iter (Json.pyOr ((Json.obj m).pyGet "allOf") (Json.arr []))))
          (allOfMergedReq fuel doc
            (Json.iter (Json.pyOr ((Json.obj m).pyGet "allOf") (Json.arr []))))) ∧
    (∀ A B C : Json,
      App.resolve_schema (fuel + 1) (allOfNode [A, B, C]) doc =
        App.resolve_schema (fuel + 1)
          (allOfNode [App.resolve_schema (fuel + 1) (allOfNode [A, B]) doc, C])
          doc) := by
  constructor
  · exact fun m h1 h2 => resolve_allOf fuel doc m h1 h2
  · intro A B C
    have e1 := resolve_allOf fuel doc [("allOf", Json.arr [A, B, C])] rfl rfl
    have e2 := resolve_allOf fuel doc [("allOf", Json.arr [A, B])] rfl rfl
    have hIter3 : Json.iter (Json.pyOr
        ((Json.obj [("allOf", Json.arr [A, B, C])]).pyGet "allOf") (Json.arr [])) =
        [A, B, C] := rfl
    have hIter2 : Json.iter (Json.pyOr
        ((Json.obj [("allOf", Json.arr [A, B])]).pyGet "allOf") (Json.arr [])) =
        [A, B] := rfl
    rw [hIter3] at e1
    rw [hIter2] at e2
    simp only [allOfNode]
    rw [e1, e2]
    have hres2 : resolvedBranch fuel doc (mergedNode (allOfMergedProps fuel doc [A, B])
        (allOfMergedReq fuel doc [A, B])) =
        mergedNode (allOfMergedProps fuel doc [A, B]) (allOfMergedReq fuel doc [A, B]) := by
      unfold resolvedBranch
      rw [if_pos (show (mergedNode (allOfMergedProps fuel doc [A, B])
        (allOfMergedReq fuel doc [A, B])).isObj = true from rfl)]
      exact resolve_mergedNode fuel doc _ _
    have hstepP : mergePropsStep fuel doc []
        (mergedNode (allOfMergedProps fuel doc [A, B]) (allOfMergedReq fuel doc [A, B])) =
        allOfMergedProps fuel doc [A, B] := by
      unfold mergePropsStep
      simp only [hres2]
      rw [if_pos (show (mergedNode (allOfMergedProps fuel doc [A, B])
        (allOfMergedReq fuel doc [A, B])).isObj = true from rfl)]
      rw [show (mergedNode (allOfMergedProps fuel doc [A, B])
        (allOfMergedReq fuel doc [A, B])).pyGet "properties" =
        Json.obj (allOfMergedProps fuel doc [A, B]) from rfl]
      rw [objEntries_pyOr_obj]
      exact updateAssoc_nil _ (nodup_allOfMergedProps fuel doc [A, B])
    have hstepR : mergeReqStep fuel doc []
        (mergedNode (allOfMergedProps fuel doc [A, B]) (allOfMergedReq fuel doc [A, B])) =
        allOfMergedReq fuel doc [A, B] := by
      unfold mergeReqStep
      simp only [hres2]
      rw [if_pos (show (mergedNode (allOfMergedProps fuel doc [A, B])
        (allOfMergedReq fuel doc [A, B])).isObj = true from rfl)]
      rw [show (mergedNode (allOfMergedProps fuel doc [A, B])
        (allOfMergedReq fuel doc [A, B])).pyGet "required" =
        Json.arr (allOfMergedReq fuel doc [A, B]) from rfl]
      rw [iter_pyOr_arr]
      simp
    have e3 := resolve_allOf fuel doc [("allOf", Json.arr
      [mergedNode (allOfMergedProps fuel doc [A, B]) (allOfMergedReq fuel doc [A, B]),
       C])] rfl rfl
    rw [e3]
    have hIterX : Json.iter (Json.pyOr ((Json.obj [("allOf", Json.arr
        [mergedNode (allOfMergedProps fuel doc [A, B]) (allOfMergedReq fuel doc [A, B]),
         C])]).pyGet "allOf") (Json.arr [])) =
        [mergedNode (allOfMergedProps fuel doc [A, B]) (allOfMergedReq fuel doc [A, B]),
         C] := rfl
    rw [hIterX]
    have hPX : allOfMergedProps fuel doc
        [mergedNode (allOfMergedProps fuel doc [A, B]) (allOfMergedReq fuel doc [A, B]),
         C] = allOfMergedProps fuel doc [A, B, C] := by
      show List.foldl (mergePropsStep fuel doc) [] _ = _
      simp only [List.foldl_cons, List.foldl_nil]
      rw [hstepP]
      rfl
    have hRX : allOfMergedReq fuel doc
        [mergedNode (allOfMergedProps fuel doc [A, B]) (allOfMergedReq fuel doc [A, B]),
         C] = allOfMergedReq fuel doc [A, B, C] := by
      show List.foldl (mergeReqStep fuel doc) [] _ = _
      simp only [List.foldl_cons, List.foldl_nil]
      rw [hstepR]
      rfl
    rw [hPX, hRX]

/-- Witness for C6 at a concrete two/three-branch document. -/
theorem C6_allOf_merge_associative_witness :
    App.resolve_schema 2
      (Json.obj [("allOf", Json.arr
        [Json.obj [("properties", Json.obj [("a", Json.num 1)])],
         Json.obj [("required", Json.arr [Json.str "a"])]])]) Json.null =
      mergedNode
        (allOfMergedProps 1 Json.null
          (Json.iter (Json.pyOr ((Json.obj [("allOf", Json.arr
            [Json.obj [("properties", Json.obj [("a", Json.num 1)])],
             Json.obj [("required", Json.arr [Json.str "a"])]])]).pyGet "allOf")
            (Json.arr []))))
        (allOfMergedReq 1 Json.null
          (Json.iter (Json.pyOr ((Json.obj [("allOf", Json.arr
            [Json.obj [("properties", Json.obj [("a", Json.num 1)])],
             Json.obj [("required", Json.arr [Json.str "a"])]])]).pyGet "allOf")
            (Json.arr [])))) ∧
    App.resolve_schema 2 (allOfNode
      [Json.obj [("properties", Json.obj [("a", Json.num 1)])],
       Json.obj [("properties", Json.obj [("a", Json.num 2), ("b", Json.num 3)])],
       Json.obj [("properties", Json.obj [("c", Json.num 4)])]]) Json.null =
    App.resolve_schema 2 (allOfNode
      [App.resolve_schema 2 (allOfNode
        [Json.obj [("properties", Json.obj [("a", Json.num 1)])],
         Json.obj [("properties", Json.obj [("a", Json.num 2), ("b", Json.num 3)])]])
        Json.null,
       Json.obj [("properties", Json.obj [("c", Json.num 4)])]]) Json.null :=
  ⟨(C6_allOf_merge_associative 1 Json.null).1 _ rfl rfl,
   (C6_allOf_merge_associative 1 Json.null).2 _ _ _⟩

theorem isPrefixL_refl (p : List Char) : isPrefixL p p = true := by
  induction p with
  | nil => rfl
  | cons c cs ih => simp [isPrefixL, ih]

theorem isPrefixL_self_append (p b : List Char) : isPrefixL p (p ++ b) = true :=
  isPrefixL_append p p b (isPrefixL_refl p)

theorem foldl_lastSeg_no_slash (l acc : List Char) (h : ∀ c ∈ l, c ≠ '/') :
    l.foldl (fun acc c => if c = '/' then [] else acc ++ [c]) acc = acc ++ l := by
  induction l generalizing acc with
  | nil => simp
  | cons c cs ih =>
    have hc : c ≠ '/' := h c (by simp)
    simp only [List.foldl_cons, if_neg hc]
    rw [ih _ (fun x hx => h x (by simp [hx]))]
    simp

theorem lastSegment_append_of_no_slash (pre name : String)
    (hpre : pre.data.foldl (fun acc c => if c = '/' then [] else acc ++ [c]) [] = [])
    (h : ∀ c ∈ name.data, c ≠ '/') :
    lastSegment (pre ++ name) = name := by
  unfold lastSegment
  rw [string_data_append, List.foldl_append, hpre,
    foldl_lastSeg_no_slash name.data [] h]
  rfl

theorem get_schema_by_name_null (doc : Json) (name : String)
    (h1 : (schemasOf doc).containsKey name = false)
    (h2 : (definitionsOf doc).containsKey name = false) :
    App.get_schema_by_name doc name = Json.null := by
  have h1' : (Json.pyOr ((Json.pyOr (doc.pyGetD "components" (Json.obj []))
      (Json.obj [])).pyGetD "schemas" (Json.obj [])) (Json.obj [])).containsKey
      name = false := h1
  have h2' : (Json.pyOr (doc.pyGetD "definitions" (Json.obj []))
      (Json.obj [])).containsKey name = false := h2
  simp only [App.get_schema_by_name, h1', Bool.false_eq_true, if_false]
  exact pyGet_null_of_containsKey_false _ _ h2'

theorem C7_unresolvable_ref_placeholder (fuel : Nat) (doc : Json) (name : String)
    (hslash : ∀ c ∈ name.data, c ≠ '/')
    (h1 : (schemasOf doc).containsKey name = false)
    (h2 : (definitionsOf doc).containsKey name = false) :
    (App.resolve_ref (refNode ("#/components/schemas/" ++ name)) doc = Json.null ∧
     App.resolve_schema (fuel + 1) (refNode ("#/components/schemas/" ++ name)) doc =
       Json.null ∧
     App.schema_to_html (fuel + 1) (refNode ("#/components/schemas/" ++ name)) doc "" =
       placeholderHtml name) ∧
    (App.resolve_ref (refNode ("#/definitions/" ++ name)) doc = Json.null ∧
     App.resolve_schema (fuel + 1) (refNode ("#/definitions/" ++ name)) doc =
       Json.null ∧
     App.schema_to_html (fuel + 1) (refNode ("#/definitions/" ++ name)) doc "" =
       placeholderHtml name) := by
  have hgsn := get_schema_by_name_null doc name h1 h2
  have hne1 : ("#/components/schemas/" ++ name) ≠ "" := by
    intro h
    have := congrArg String.data h
    rw [string_data_append] at this
    simp at this
  have hne2 : ("#/definitions/" ++ name) ≠ "" := by
    intro h
    have := congrArg String.data h
    rw [string_data_append] at this
    simp at this
  have hlast1 : lastSegment ("#/components/schemas/" ++ name) = name :=
    lastSegment_append_of_no_slash _ _ (by decide) hslash
  have hlast2 : lastSegment ("#/definitions/" ++ name) = name :=
    lastSegment_append_of_no_slash _ _ (by decide) hslash
  have htr1 : (Json.str ("#/components/schemas/" ++ name)).truthy = true := by
    simp [Json.truthy, hne1]
  have htr2 : (Json.str ("#/definitions/" ++ name)).truthy = true := by
    simp [Json.truthy, hne2]
  have hsw1 : startsWith ("#/components/schemas/" ++ name)
      "#/components/schemas/" = true := by
    unfold startsWith
    rw [string_data_append]
    exact isPrefixL_self_append _ _
  have hsw2s : startsWith ("#/definitions/" ++ name)
      "#/components/schemas/" = false := by
    unfold startsWith
    rw [string_data_append]
    rfl
  have hsw2d : startsWith ("#/definitions/" ++ name) "#/definitions/" = true := by
    unfold startsWith
    rw [string_data_append]
    exact isPrefixL_self_append _ _
  have hrr1 : App.resolve_ref (refNode ("#/components/schemas/" ++ name)) doc =
      Json.null := by
    simp only [App.resolve_ref, refNode]
    simp only [show (Json.obj [("$ref", Json.str ("#/components/schemas/" ++ name))]).pyGet
      "$ref" = Json.str ("#/components/schemas/" ++ name) from rfl]
    simp only [htr1, Json.isStr, Json.jstr, Json.truthy, Json.isObj, hsw1,
      Bool.not_true, Bool.or_self, Bool.false_or, Bool.or_false, if_false,
      if_true, hlast1, hgsn]
    simp [hne1]
  have hrr2 : App.resolve_ref (refNode ("#/definitions/" ++ name)) doc =
      Json.null := by
    simp only [App.resolve_ref, refNode]
    simp only [show (Json.obj [("$ref", Json.str ("#/definitions/" ++ name))]).pyGet
      "$ref" = Json.str ("#/definitions/" ++ name) from rfl]
    simp only [htr2, Json.isStr, Json.jstr, Json.truthy, Json.isObj, hsw2s, hsw2d,
      Bool.not_true, Bool.or_self, Bool.false_or, Bool.or_false, if_false,
      if_true, hlast2, hgsn]
    simp [hne2]
  have hrs1 : App.resolve_schema (fuel + 1)
      (refNode ("#/components/schemas/" ++ name)) doc = Json.null := by
    simp only [App.resolve_schema, refNode]
    simp only [show (Json.obj [("$ref", Json.str ("#/components/schemas/" ++ name))]).pyGet
      "$ref" = Json.str ("#/components/schemas/" ++ name) from rfl]
    simp only [show App.resolve_ref (Json.obj [("$ref",
      Json.str ("#/components/schemas/" ++ name))]) doc =
      App.resolve_ref (refNode ("#/components/schemas/" ++ name)) doc from rfl]
    simp only [htr1, hrr1, Json.truthy, Json.isObj, Bool.not_true, Bool.or_self,
      Bool.false_or, Bool.or_false, if_false, if_true]
    simp [hne1]
  have hrs2 : App.resolve_schema (fuel + 1)
      (refNode ("#/definitions/" ++ name)) doc = Json.null := by
    simp only [App.resolve_schema, refNode]
    simp only [show (Json.obj [("$ref", Json.str ("#/definitions/" ++ name))]).pyGet
      "$ref" = Json.str ("#/definitions/" ++ name) from rfl]
    simp only [show App.resolve_ref (Json.obj [("$ref",
      Json.str ("#/definitions/" ++ name))]) doc =
      App.resolve_ref (refNode ("#/definitions/" ++ name)) doc from rfl]
    simp only [htr2, hrr2, Json.truthy, Json.isObj, Bool.not_true, Bool.or_self,
      Bool.false_or, Bool.or_false, if_false, if_true]
    simp [hne2]
  have hh1 : App.schema_to_html (fuel + 1)
      (refNode ("#/components/schemas/" ++ name)) doc "" = placeholderHtml name := by
    show App.schemaToHtmlWith (fun s d r => (App.schemaFns fuel).1 s d r)
      (fun s d t => (App.schemaFns fuel).2 s d t) (fuel + 1)
      (refNode ("#/components/schemas/" ++ name)) doc "" = placeholderHtml name
    unfold App.schemaToHtmlWith
    simp only [show App.resolve_schema (fuel + 1)
      (refNode ("#/components/schemas/" ++ name)) doc = Json.null from hrs1]
    simp only [refNode, Json.pyOr, Json.truthy, Json.isObj, Bool.not_true,
      if_false, if_true]
    simp only [show (Json.obj [("$ref",
        Json.str ("#/components/schemas/" ++ name))]).pyGet "type" =
        Json.null from rfl,
      show (Json.obj [("$ref",
        Json.str ("#/components/schemas/" ++ name))]).pyGet "properties" =
        Json.null from rfl,
      show (Json.obj [("$ref",
        Json.str ("#/components/schemas/" ++ name))]).pyGet "$ref" =
        Json.str ("#/components/schemas/" ++ name) from rfl,
      Json.jeqStr, Json.jstr, hlast1, hgsn]
    simp [hne1, placeholderHtml,
      show (Json.obj [("$ref",
        Json.str ("#/components/schemas/" ++ name))]).pyGet "type" =
        Json.null from rfl,
      show (Json.obj [("$ref",
        Json.str ("#/components/schemas/" ++ name))]).pyGet "properties" =
        Json.null from rfl,
      show (Json.obj [("$ref",
        Json.str ("#/components/schemas/" ++ name))]).pyGet "required" =
        Json.null from rfl,
      show (Json.obj [("$ref",
        Json.str ("#/components/schemas/" ++ name))]).pyGet "$ref" =
        Json.str ("#/components/schemas/" ++ name) from rfl,
      hlast1, hgsn, Json.jeqStr, Json.truthy]
  have hh2 : App.schema_to_html (fuel + 1)
      (refNode ("#/definitions/" ++ name)) doc "" = placeholderHtml name := by
    show App.schemaToHtmlWith (fun s d r => (App.schemaFns fuel).1 s d r)
      (fun s d t => (App.schemaFns fuel).2 s d t) (fuel + 1)
      (refNode ("#/definitions/" ++ name)) doc "" = placeholderHtml name
    unfold App.schemaToHtmlWith
    simp only [show App.resolve_schema (fuel + 1)
      (refNode ("#/definitions/" ++ name)) doc = Json.null from hrs2]
    simp only [refNode, Json.pyOr, Json.truthy, Json.isObj, Bool.not_true,
      if_false, if_true]
    simp only [show (Json.obj [("$ref",
        Json.str ("#/definitions/" ++ name))]).pyGet "type" =
        Json.null from rfl,
      show (Json.obj [("$ref",
        Json.str ("#/definitions/" ++ name))]).pyGet "properties" =
        Json.null from rfl,
      show (Json.obj [("$ref",
        Json.str ("#/definitions/" ++ name))]).pyGet "$ref" =
        Json.str ("#/definitions/" ++ name) from rfl,
      Json.jeqStr, Json.jstr, hlast2, hgsn]
    simp [hne2, placeholderHtml,
      show (Json.obj [("$ref",
        Json.str ("#/definitions/" ++ name))]).pyGet "type" =
        Json.null from rfl,
      show (Json.obj [("$ref",
        Json.str ("#/definitions/" ++ name))]).pyGet "properties" =
        Json.null from rfl,
      show (Json.obj [("$ref",
        Json.str ("#/definitions/" ++ name))]).pyGet "required" =
        Json.null from rfl,
      show (Json.obj [("$ref",
        Json.str ("#/definitions/" ++ name))]).pyGet "$ref" =
        Json.str ("#/definitions/" ++ name) from rfl,
      hlast2, hgsn, Json.jeqStr, Json.truthy]
  exact ⟨⟨hrr1, hrs1, hh1⟩, ⟨hrr2, hrs2, hh2⟩⟩

/-- Witness for C7: the spec's own scenario — a `$ref` to `Missing` in a
document with an empty `components.schemas` and no `definitions`. -/
theorem C7_unresolvable_ref_placeholder_witness :
    (App.resolve_ref (refNode ("#/components/schemas/" ++ "Missing"))
       (Json.obj [("components", Json.obj [("schemas", Json.obj [])])]) = Json.null ∧
     App.resolve_schema 3 (refNode ("#/components/schemas/" ++ "Missing"))
       (Json.obj [("components", Json.obj [("schemas", Json.obj [])])]) = Json.null ∧
     App.schema_to_html 3 (refNode ("#/components/schemas/" ++ "Missing"))
       (Json.obj [("components", Json.obj [("schemas", Json.obj [])])]) "" =
       placeholderHtml "Missing") ∧
    (App.resolve_ref (refNode ("#/definitions/" ++ "Missing"))
       (Json.obj [("components", Json.obj [("schemas", Json.obj [])])]) = Json.null ∧
     App.resolve_schema 3 (refNode ("#/definitions/" ++ "Missing"))
       (Json.obj [("components", Json.obj [("schemas", Json.obj [])])]) = Json.null ∧
     App.schema_to_html 3 (refNode ("#/definitions/" ++ "Missing"))
       (Json.obj [("components", Json.obj [("schemas", Json.obj [])])]) "" =
       placeholderHtml "Missing") :=
  C7_unresolvable_ref_placeholder 2
    (Json.obj [("components", Json.obj [("schemas", Json.obj [])])]) "Missing"
    (by decide) (by decide) (by decide)

theorem truthy_ite_isObj (j : Json) :
    (if j.isObj = true then j else Json.null).truthy = isNonEmptyObj j := by
  cases j with
  | obj m => cases m <;> rfl
  | null => rfl
  | b x => cases x <;> rfl
  | num n => rfl
  | str s => rfl
  | arr l => rfl

/-- C2 (amended): the data payload's `how_to_call.has_body` flag is true
iff the (already uppercased) method is POST/PUT/PATCH and the operation's
`requestBody` value is a non-empty mapping — no media-type condition. -/
theorem C2_amended_has_body (fuel : Nat) (doc : Json) (base : String)
    (e : App.Entry) :
    endpointHasBody (App.endpointData fuel doc base e) =
      Json.b ((["POST", "PUT", "PATCH"].contains (pyUpper e.method)) &&
        isNonEmptyObj (e.op.pyGet "requestBody")) := by
  show Json.b ((["POST", "PUT", "PATCH"].contains (pyUpper e.method)) &&
    (if (e.op.pyGet "requestBody").isObj = true then e.op.pyGet "requestBody"
     else Json.null).truthy) = _
  rw [truthy_ite_isObj]

theorem mem_insertSortedBy {α : Type} (key : α → String) (x y : α) (l : List α) :
    y ∈ insertSortedBy key x l ↔ y = x ∨ y ∈ l := by
  induction l with
  | nil => simp [insertSortedBy]
  | cons z zs ih =>
    unfold insertSortedBy
    by_cases h : strLtB (key x) (key z) = true
    · simp only [h, if_true, List.mem_cons]
    · simp only [h, Bool.false_eq_true, if_false, List.mem_cons, ih]
      tauto

theorem mem_sortByKey {α : Type} (key : α → String) (y : α) (l : List α) :
    y ∈ sortByKey key l ↔ y ∈ l := by
  induction l with
  | nil => simp [sortByKey]
  | cons z zs ih =>
    unfold sortByKey
    rw [mem_insertSortedBy, ih, List.mem_cons]

theorem mem_keys_addEntry (bt : List (String × List App.Entry)) (tag : String)
    (e : App.Entry) (x : String) (h : x ∈ (App.addEntry bt tag e).map (·.1)) :
    x ∈ bt.map (·.1) ∨ x = tag := by
  induction bt with
  | nil =>
    simp only [App.addEntry, List.map_cons, List.map_nil, List.mem_singleton] at h
    exact Or.inr h
  | cons g rest ih =>
    obtain ⟨t, es⟩ := g
    by_cases ht : t = tag
    · simp only [App.addEntry, if_pos ht, List.map_cons, List.mem_cons] at h ⊢
      tauto
    · simp only [App.addEntry, if_neg ht, List.map_cons, List.mem_cons] at h ⊢
      rcases h with h | h
      · exact Or.inl (Or.inl h)
      · rcases ih h with h' | h'
        · exact Or.inl (Or.inr h')
        · exact Or.inr h'

theorem nodupKeys_addEntry (bt : List (String × List App.Entry)) (tag : String)
    (e : App.Entry) (h : (bt.map (·.1)).Nodup) :
    ((App.addEntry bt tag e).map (·.1)).Nodup := by
  induction bt with
  | nil => simp [App.addEntry]
  | cons g rest ih =>
    obtain ⟨t, es⟩ := g
    simp only [List.map_cons, List.nodup_cons] at h
    by_cases ht : t = tag
    · simp only [App.addEntry, if_pos ht, List.map_cons, List.nodup_cons]
      exact h
    · simp only [App.addEntry, if_neg ht, List.map_cons, List.nodup_cons]
      refine ⟨fun hmem => ?_, ih h.2⟩
      rcases mem_keys_addEntry rest tag e t hmem with h' | h'
      · exact h.1 h'
      · exact ht h'

theorem groupEntries_eq_of_mem (bt : List (String × List App.Entry))
    (hnd : (bt.map (·.1)).Nodup) (g : String × List App.Entry) (hg : g ∈ bt) :
    App.groupEntries bt g.1 = g.2 := by
  induction bt with
  | nil => cases hg
  | cons g0 rest ih =>
    simp only [List.map_cons, List.nodup_cons] at hnd
    rcases List.mem_cons.mp hg with h | h
    · subst h
      simp [App.groupEntries]
    · obtain ⟨t, es⟩ := g0
      have hne : t ≠ g.1 := by
        intro he
        exact hnd.1 (he ▸ List.mem_map.mpr ⟨g, h, rfl⟩)
      simp only [App.groupEntries, if_neg hne]
      exact ih hnd.2 h

theorem mem_groupEntries_of_mem (bt : List (String × List App.Entry))
    (tag : String) (x : App.Entry) (h : x ∈ App.groupEntries bt tag) :
    ∃ g ∈ bt, x ∈ g.2 := by
  induction bt with
  | nil => simp [App.groupEntries] at h
  | cons g0 rest ih =>
    obtain ⟨t, es⟩ := g0
    by_cases ht : t = tag
    · simp only [App.groupEntries, if_pos ht] at h
      exact ⟨(t, es), by simp, h⟩
    · simp only [App.groupEntries, if_neg ht] at h
      obtain ⟨g, hg, hx⟩ := ih h
      exact ⟨g, by simp [hg], hx⟩

theorem foldl_preserve {α β : Type} (g : β → α → β) (P : β → Prop)
    (h : ∀ b a, P b → P (g b a)) :
    ∀ (l : List α) (b : β), P b → P (l.foldl g b)
  | [], _, hb => hb
  | a :: l, b, hb => foldl_preserve g P h l (g b a) (h b a hb)

theorem nodupKeys_groupPass1 (bt : List (String × List App.Entry))
    (sp : List (String × Json)) (h : (bt.map (·.1)).Nodup) :
    ((App.groupPass1 bt sp).map (·.1)).Nodup := by
  unfold App.groupPass1
  refine foldl_preserve _ (fun b => (b.map (·.1)).Nodup) ?_ sp bt h
  intro b pv hb
  dsimp only
  refine foldl_preserve _ (fun b => (b.map (·.1)).Nodup) ?_ _ b hb
  intro b' m hb'
  unfold App.pass1Step
  dsimp only
  split
  · exact hb'
  · exact nodupKeys_addEntry _ _ _ hb'

theorem nodupKeys_groupPass2 (bt : List (String × List App.Entry))
    (sp : List (String × Json)) (h : (bt.map (·.1)).Nodup) :
    ((App.groupPass2 bt sp).map (·.1)).Nodup := by
  unfold App.groupPass2
  refine foldl_preserve _ (fun b => (b.map (·.1)).Nodup) ?_ sp bt h
  intro b pv hb
  dsimp only
  split
  · refine foldl_preserve _ (fun b => (b.map (·.1)).Nodup) ?_ _ b hb
    intro b' k hb'
    unfold App.pass2Step
    split
    · exact hb'
    · dsimp only
      split
      · exact nodupKeys_addEntry _ _ _ hb'
      · exact hb'
  · exact hb

theorem nodupKeys_buildByTag (doc : Json) :
    (((App.buildByTagData doc).map (·.1)).Nodup) := by
  unfold App.buildByTagData
  exact nodupKeys_groupPass2 _ _ (nodupKeys_groupPass1 _ _ (by simp))

theorem endpointData_method (fuel : Nat) (doc : Json) (fub : String)
    (e : App.Entry) :
    (App.endpointData fuel doc fub e).pyGet "method" = Json.str e.method := rfl

theorem endpointData_path (fuel : Nat) (doc : Json) (fub : String)
    (e : App.Entry) :
    (App.endpointData fuel doc fub e).pyGet "path" = Json.str e.path := rfl

theorem pyGet_payload_tags (a b c d : Json) (s : List Json) (x : Json) :
    (Json.obj [("title", a), ("version", b), ("description", c), ("base_url", d),
      ("tags", Json.arr s), ("stacks", x)]).pyGet "tags" = Json.arr s := rfl

theorem iter_arr (l : List Json) : Json.iter (Json.arr l) = l := rfl

theorem dataTags_payload (fuel : Nat) (doc : Json) (base : String) :
    dataTagNames (App.build_api_reference_data fuel doc base) =
      sortByKey id ((App.buildByTagData doc).map (·.1)) := by
  simp only [dataTagNames, App.build_api_reference_data]
  rw [pyGet_payload_tags, iter_arr, List.map_map]
  have h2 : ((fun t => Json.jstr (t.pyGet "name")) ∘
      (fun tag => Json.obj [("name", Json.str tag),
        ("endpoints", Json.arr ((App.groupEntries (App.buildByTagData doc) tag).map
          (App.endpointData fuel doc (if base ≠ "" then rstripSlash base else ""))))])) =
      id := by
    funext tag
    rfl
  rw [h2, List.map_id]

theorem dataPairs_payload (fuel : Nat) (doc : Json) (base : String) :
    dataMethodPathPairs (App.build_api_reference_data fuel doc base) =
      (sortByKey id ((App.buildByTagData doc).map (·.1))).flatMap
        (fun tag => (App.groupEntries (App.buildByTagData doc) tag).map
          (fun e => (e.method, e.path))) := by
  simp only [dataMethodPathPairs, App.build_api_reference_data]
  rw [pyGet_payload_tags, iter_arr, List.flatMap_map]
  exact congrArg _ (funext fun tag => by
    show ((App.groupEntries (App.buildByTagData doc) tag).map
        (App.endpointData fuel doc (if base ≠ "" then rstripSlash base else ""))).map
        (fun ep => (Json.jstr (ep.pyGet "method"), Json.jstr (ep.pyGet "path"))) = _
    rw [List.map_map]
    exact congrArg (fun f => List.map f (App.groupEntries (App.buildByTagData doc) tag))
      (funext fun e => rfl))

/-- C8: for every document, base URL and resolution fuel, the data render
and the HTML render enumerate the same `(method, path)` pairs and the same
tag names (same membership in both directions): both views are projections
of the identical grouping block. -/
theorem C8_data_html_same_endpoints_tags (fuel : Nat) (doc : Json) (base : String) :
    (∀ pr : String × String,
      pr ∈ dataMethodPathPairs (App.build_api_reference_data fuel doc base) ↔
        pr ∈ htmlMethodPathPairs doc) ∧
    (∀ tg : String,
      tg ∈ dataTagNames (App.build_api_reference_data fuel doc base) ↔
        tg ∈ htmlTagNames doc) := by
  have hbt : App.buildByTagHtml doc = App.buildByTagData doc := rfl
  have hnd := nodupKeys_buildByTag doc
  constructor
  · intro pr
    rw [dataPairs_payload, htmlMethodPathPairs, hbt]
    constructor
    · intro h
      obtain ⟨tag, _, hpr⟩ := List.mem_flatMap.mp h
      obtain ⟨e, he, hpe⟩ := List.mem_map.mp hpr
      obtain ⟨g, hg, heg⟩ := mem_groupEntries_of_mem _ _ _ he
      exact List.mem_map.mpr ⟨e, List.mem_flatMap.mpr ⟨g, hg, heg⟩, hpe⟩
    · intro h
      obtain ⟨e, he, hpe⟩ := List.mem_map.mp h
      obtain ⟨g, hg, heg⟩ := List.mem_flatMap.mp he
      refine List.mem_flatMap.mpr ⟨g.1, ?_, ?_⟩
      · exact (mem_sortByKey id g.1 _).mpr (List.mem_map.mpr ⟨g, hg, rfl⟩)
      · rw [groupEntries_eq_of_mem _ hnd g hg]
        exact List.mem_map.mpr ⟨e, heg, hpe⟩
  · intro tg
    rw [dataTags_payload, htmlTagNames, hbt, mem_sortByKey]

theorem pyOr_self (a : Json) : Json.pyOr a a = a := by
  unfold Json.pyOr
  exact ite_self a

theorem lookupKey_setKey_ne (m : List (String × Json)) (k k' : String) (v : Json)
    (h : k' ≠ k) : Json.lookupKey (setKey m k v) k' = Json.lookupKey m k' := by
  induction m with
  | nil => simp [setKey, Json.lookupKey, Ne.symm h]
  | cons kv rest ih =>
    by_cases hk : kv.1 = k
    · obtain ⟨a, b⟩ := kv
      simp only at hk
      subst hk
      simp only [setKey, if_pos rfl, Json.lookupKey,
        if_neg (fun he : a = k' => h he.symm)]
    · obtain ⟨a, b⟩ := kv
      simp only at hk
      simp only [setKey, if_neg hk, Json.lookupKey]
      by_cases ha : a = k'
      · simp [ha]
      · simp [ha, ih]

theorem pyGet_setKey_ne (m : List (String × Json)) (k k' : String) (v : Json)
    (h : k' ≠ k) :
    (Json.obj (setKey m k v)).pyGet k' = (Json.obj m).pyGet k' := by
  show (match Json.lookupKey (setKey m k v) k' with
    | some w => w | none => Json.null) = _
  rw [lookupKey_setKey_ne m k k' v h]
  rfl

theorem hasKey_setKey_ne (m : List (String × Json)) (k k' : String) (v : Json)
    (h : k' ≠ k) : Json.hasKey (setKey m k v) k' = Json.hasKey m k' := by
  induction m with
  | nil => simp [setKey, Json.hasKey, Ne.symm h]
  | cons kv rest ih =>
    by_cases hk : kv.1 = k
    · obtain ⟨a, b⟩ := kv
      simp only at hk
      subst hk
      simp [setKey, Json.hasKey]
    · obtain ⟨a, b⟩ := kv
      simp only at hk
      simp only [setKey, if_neg hk, Json.hasKey, ih]

theorem truthy_obj_setKey (m : List (String × Json)) (k : String) (v : Json) :
    (Json.obj (setKey m k v)).truthy = true := by
  cases m with
  | nil => rfl
  | cons kv rest =>
    obtain ⟨a, b⟩ := kv
    by_cases hk : a = k
    · simp [setKey, hk, Json.truthy]
    · simp [setKey, hk, Json.truthy]

theorem resolve_schema_fixed (fuel : Nat) (s doc : Json)
    (hr : (s.pyGet "$ref").truthy = false) (ha : s.containsKey "allOf" = false) :
    App.resolve_schema fuel s doc = s := by
  cases fuel with
  | zero => rfl
  | succ n =>
    cases htr : s.truthy
    · simp [App.resolve_schema, htr]
    · cases hob : s.isObj
      · simp [App.resolve_schema, htr, hob]
      · simp [App.resolve_schema, htr, hob, hr, ha]

theorem schema_to_data_object_form (fuel : Nat) (m : List (String × Json))
    (doc : Json)
    (hs : (Json.obj m).truthy = true)
    (hr : ((Json.obj m).pyGet "$ref").truthy = false)
    (ha : (Json.obj m).containsKey "allOf" = false)
    (hobj : (Json.jeqStr ((Json.obj m).pyGet "type") "object" ||
      ((Json.obj m).pyGet "properties").truthy) = true) :
    App.schema_to_data fuel (Json.obj m) doc =
      Json.obj [("type", Json.str "object"),
        ("properties", Json.arr ((Json.objEntries
            (Json.pyOr ((Json.obj m).pyGet "properties") (Json.obj []))).filterMap
          (App.dataPropRecord fuel doc (Json.iter (Json.pyOr
            ((Json.obj m).pyGet "required") (Json.arr []))))))] := by
  have hob : (Json.obj m).isObj = true := rfl
  simp only [App.schema_to_data, resolve_schema_fixed fuel (Json.obj m) doc hr ha,
    pyOr_self, hs, hob, hobj]
  norm_num

/-- C3 (amended): description precedence per projection.  With a parent
schema `Json.obj m` that is truthy, carries no `$ref`/`allOf` and passes
the object test: (1) the data projection renders each object property with
description `spec_prop_description` — the property's own description
first, the resolved target's only as fallback, as the claim says; (2) the
HTML projection's row for an object property carries
`html_prop_description` — the *resolved* target schema's description
first, reversing the claimed precedence; (3), (4) the parent schema's own
`description` key never reaches any property row: overwriting it changes
neither projection's property output. -/
theorem C3_amended_description_precedence (fuel : Nat)
    (nested : Json → Json → String → String) (m : List (String × Json))
    (doc : Json) (req : List Json) (d : Json)
    (hs : (Json.obj m).truthy = true)
    (hr : ((Json.obj m).pyGet "$ref").truthy = false)
    (ha : (Json.obj m).containsKey "allOf" = false)
    (hobj : (Json.jeqStr ((Json.obj m).pyGet "type") "object" ||
      ((Json.obj m).pyGet "properties").truthy) = true) :
    (App.schema_to_data fuel (Json.obj m) doc =
      Json.obj [("type", Json.str "object"),
        ("properties", Json.arr ((Json.objEntries
            (Json.pyOr ((Json.obj m).pyGet "properties") (Json.obj []))).filterMap
          (fun kv => if kv.2.isObj then
            some (Json.obj [("name", Json.str kv.1),
              ("type", Json.str (App.schema_type_str fuel kv.2)),
              ("required", Json.b ((Json.iter (Json.pyOr
                ((Json.obj m).pyGet "required") (Json.arr []))).any
                (fun r => Json.jeqStr r kv.1))),
              ("description", spec_prop_description fuel kv.2 doc)])
            else none)))]) ∧
    (∀ rs : List Json, ∀ kv : String × Json, kv.2.isObj = true →
      ∃ rest : List String, App.htmlPropRows nested fuel doc rs kv =
        ("<tr><td><code>" ++ htmlEscape kv.1 ++ "</code></td><td><code>" ++
          htmlEscape (App.schema_type_str fuel kv.2) ++ "</code></td><td>" ++
          (if rs.any (fun r => Json.jeqStr r kv.1) then "required"
           else "optional") ++ "</td><td>" ++
          htmlEscape (pyReplace (Json.jstr
            (html_prop_description fuel kv.2 doc)) "\n" " ") ++
          "</td></tr>") :: rest) ∧
    (App.renderPropsWith nested fuel (Json.obj (setKey m "description" d)) doc
        req =
      App.renderPropsWith nested fuel (Json.obj m) doc req) ∧
    (App.schema_to_data fuel (Json.obj (setKey m "description" d)) doc =
      App.schema_to_data fuel (Json.obj m) doc) := by
  have hs' := truthy_obj_setKey m "description" d
  have hr' : ((Json.obj (setKey m "description" d)).pyGet "$ref").truthy
      = false := by
    rw [pyGet_setKey_ne m "description" "$ref" d (by decide)]
    exact hr
  have ha' : (Json.obj (setKey m "description" d)).containsKey "allOf"
      = false := by
    show Json.hasKey (setKey m "description" d) "allOf" = false
    rw [hasKey_setKey_ne m "description" "allOf" d (by decide)]
    exact ha
  have hobj' : (Json.jeqStr ((Json.obj (setKey m "description" d)).pyGet "type")
      "object" ||
      ((Json.obj (setKey m "description" d)).pyGet "properties").truthy)
      = true := by
    rw [pyGet_setKey_ne m "description" "type" d (by decide),
      pyGet_setKey_ne m "description" "properties" d (by decide)]
    exact hobj
  refine ⟨?_, ?_, ?_, ?_⟩
  · rw [schema_to_data_object_form fuel m doc hs hr ha hobj]
    refine congrArg (fun l => Json.obj [("type", Json.str "object"),
      ("properties", Json.arr l)]) ?_
    refine congrArg (fun f => List.filterMap f (Json.objEntries
      (Json.pyOr ((Json.obj m).pyGet "properties") (Json.obj [])))) ?_
    funext kv
    unfold App.dataPropRecord
    by_cases h : kv.2.isObj = true
    · rw [if_neg (by simp [h]), if_pos h]
      rfl
    · rw [if_pos (by simp [h]), if_neg h]
  · intro rs kv hkv
    obtain ⟨name, p⟩ := kv
    cases p with
    | obj mm => exact ⟨_, rfl⟩
    | null => simp [Json.isObj] at hkv
    | b x => simp [Json.isObj] at hkv
    | num x => simp [Json.isObj] at hkv
    | str x => simp [Json.isObj] at hkv
    | arr l => simp [Json.isObj] at hkv
  · unfold App.renderPropsWith
    rw [pyGet_setKey_ne m "description" "required" d (by decide),
      pyGet_setKey_ne m "description" "properties" d (by decide)]
  · rw [schema_to_data_object_form fuel (setKey m "description" d) doc hs' hr'
      ha' hobj', schema_to_data_object_form fuel m doc hs hr ha hobj,
      pyGet_setKey_ne m "description" "properties" d (by decide),
      pyGet_setKey_ne m "description" "required" d (by decide)]

theorem C3_amended_description_precedence_witness :
    (Json.obj [("type", Json.str "object"),
      ("properties", Json.obj [("a", Json.obj [("type", Json.str "string"),
        ("description", Json.str "own")])])]).truthy = true ∧
    App.schema_to_data 1
        (Json.obj (setKey [("type", Json.str "object"),
          ("properties", Json.obj [("a", Json.obj [("type", Json.str "string"),
            ("description", Json.str "own")])])] "description"
          (Json.str "PARENT"))) (Json.obj []) =
      App.schema_to_data 1
        (Json.obj [("type", Json.str "object"),
          ("properties", Json.obj [("a", Json.obj [("type", Json.str "string"),
            ("description", Json.str "own")])])]) (Json.obj []) :=
  ⟨by decide,
    (C3_amended_description_precedence 1 (fun _ _ _ => "")
      [("type", Json.str "object"),
        ("properties", Json.obj [("a", Json.obj [("type", Json.str "string"),
          ("description", Json.str "own")])])]
      (Json.obj []) [] (Json.str "PARENT")
      (by decide) (by decide) (by decide) (by decide)).2.2.2⟩

theorem countP_allEntries_addEntry (p : App.Entry → Bool)
    (bt : List (String × List App.Entry)) (tag : String) (e : App.Entry) :
    List.countP p (allEntries (App.addEntry bt tag e)) =
      List.countP p (allEntries bt) + (if p e then 1 else 0) := by
  induction bt with
  | nil =>
    show List.countP p [e] = List.countP p [] + (if p e then 1 else 0)
    cases h : p e <;> simp [List.countP_cons, h]
  | cons g rest ih =>
    obtain ⟨t, es⟩ := g
    by_cases ht : t = tag
    · simp only [App.addEntry, if_pos ht, allEntries, List.flatMap_cons,
        List.countP_append]
      cases h : p e <;> (simp [List.countP_cons, h]; try omega)
    · simp only [App.addEntry, if_neg ht, allEntries, List.flatMap_cons,
        List.countP_append]
      have := ih
      simp only [allEntries] at this
      rw [this]
      omega

theorem countP_pass1Step (p : App.Entry → Bool) (path : String) (item : Json)
    (bt : List (String × List App.Entry)) (mth : String) :
    List.countP p (allEntries (App.pass1Step path item bt mth)) =
      List.countP p (allEntries bt) + pass1Contrib p (path, item) mth := by
  unfold App.pass1Step pass1Contrib
  by_cases h : (item.pyGet mth).isObj = true
  · rw [if_neg (by simp [h])]
    rw [countP_allEntries_addEntry]
    simp [h]
  · rw [if_pos (by simp [h])]
    simp [h]

theorem countP_pass1Fold (p : App.Entry → Bool) (path : String) (item : Json) :
    ∀ (ms : List String) (bt : List (String × List App.Entry)),
    List.countP p (allEntries (ms.foldl (App.pass1Step path item) bt)) =
      List.countP p (allEntries bt) +
        (ms.map (pass1Contrib p (path, item))).sum := by
  intro ms
  induction ms with
  | nil => simp
  | cons mth rest ih =>
    intro bt
    simp only [List.foldl_cons, List.map_cons, List.sum_cons]
    rw [ih, countP_pass1Step]
    omega

theorem countP_groupPass1 (p : App.Entry → Bool) :
    ∀ (sp : List (String × Json)) (bt : List (String × List App.Entry)),
    List.countP p (allEntries (App.groupPass1 bt sp)) =
      List.countP p (allEntries bt) +
        (sp.map (fun pv => (App.METHODS.map (pass1Contrib p pv)).sum)).sum := by
  intro sp
  induction sp with
  | nil => simp [App.groupPass1]
  | cons pv rest ih =>
    intro bt
    obtain ⟨path, item⟩ := pv
    show List.countP p (allEntries (App.groupPass1
      (App.METHODS.foldl (App.pass1Step path item) bt) rest)) = _
    rw [ih, countP_pass1Fold]
    simp only [List.map_cons, List.sum_cons]
    omega

theorem countP_pass2Step (p : App.Entry → Bool) (path : String) (item : Json)
    (bt : List (String × List App.Entry)) (key : String) :
    List.countP p (allEntries (App.pass2Step path item bt key)) =
      List.countP p (allEntries bt) + pass2Contrib p (path, item) key := by
  unfold App.pass2Step pass2Contrib
  dsimp only
  by_cases hsk : App.SKIP_KEYS.contains (pyLower key) = true
  · rw [if_pos hsk, if_neg (by rw [hsk]; simp)]
    omega
  · have hsk' : App.SKIP_KEYS.contains (pyLower key) = false := by
      revert hsk
      cases App.SKIP_KEYS.contains (pyLower key) <;> simp
    rw [if_neg hsk]
    by_cases hc : ((item.pyGet key).isObj &&
        ((item.pyGet key).containsKey "summary" ||
          (item.pyGet key).containsKey "description")) = true
    · rw [if_pos hc, countP_allEntries_addEntry]
      congr 1
      rw [hsk', hc]
      cases hpe : p ⟨path, pyUpper key, item.pyGet key,
          "endpoint-" ++ App.slug (key ++ "-" ++ path)⟩ <;> simp [hpe]
    · rw [if_neg hc, if_neg ?_]
      · omega
      · rw [hsk']
        simp only [Bool.not_eq_true] at hc
        rw [hc]
        simp

theorem countP_pass2Fold (p : App.Entry → Bool) (path : String) (item : Json) :
    ∀ (ks : List String) (bt : List (String × List App.Entry)),
    List.countP p (allEntries (ks.foldl (App.pass2Step path item) bt)) =
      List.countP p (allEntries bt) +
        (ks.map (pass2Contrib p (path, item))).sum := by
  intro ks
  induction ks with
  | nil => simp
  | cons key rest ih =>
    intro bt
    simp only [List.foldl_cons, List.map_cons, List.sum_cons]
    rw [ih, countP_pass2Step]
    omega

theorem countP_groupPass2 (p : App.Entry → Bool) :
    ∀ (sp : List (String × Json)) (bt : List (String × List App.Entry)),
    List.countP p (allEntries (App.groupPass2 bt sp)) =
      List.countP p (allEntries bt) +
        (sp.map (fun pv =>
          if pv.2.isObj && ¬ pv.2.containsKey "get" &&
              ¬ pv.2.containsKey "post" then
            ((Json.keys pv.2).map (pass2Contrib p pv)).sum
          else 0)).sum := by
  intro sp
  induction sp with
  | nil => simp [App.groupPass2]
  | cons pv rest ih =>
    intro bt
    obtain ⟨path, item⟩ := pv
    show List.countP p (allEntries (App.groupPass2
      (if item.isObj && ¬ item.containsKey "get" && ¬ item.containsKey "post"
       then (Json.keys item).foldl (App.pass2Step path item) bt else bt)
      rest)) = _
    rw [ih]
    simp only [List.map_cons, List.sum_cons]
    by_cases hg : (item.isObj && ¬ item.containsKey "get" &&
        ¬ item.containsKey "post") = true
    · rw [if_pos hg, if_pos hg, countP_pass2Fold]
      omega
    · rw [if_neg hg, if_neg hg]
      omega

theorem eq_of_mem_of_nodup_keys {α β : Type} (l : List (α × β)) (a b : α × β)
    (hnd : (l.map Prod.fst).Nodup) (ha : a ∈ l) (hb : b ∈ l) (h : a.1 = b.1) :
    a = b := by
  induction l with
  | nil => cases ha
  | cons x xs ih =>
    simp only [List.map_cons, List.nodup_cons] at hnd
    rcases List.mem_cons.mp ha with ha' | ha' <;>
      rcases List.mem_cons.mp hb with hb' | hb'
    · rw [ha', hb']
    · refine absurd ?_ hnd.1
      rw [← ha', h]
      exact List.mem_map.mpr ⟨b, hb', rfl⟩
    · refine absurd ?_ hnd.1
      rw [← hb', ← h]
      exact List.mem_map.mpr ⟨a, ha', rfl⟩
    · exact ih hnd.2 ha' hb'

theorem pyGet_obj_of_lookup (im : List (String × Json)) (k : String) (op : Json)
    (h : Json.lookupKey im k = some op) : (Json.obj im).pyGet k = op := by
  show (match Json.lookupKey im k with
    | some v => v | none => Json.null) = op
  rw [h]

theorem mem_keys_of_lookup (im : List (String × Json)) (k : String) (op : Json)
    (h : Json.lookupKey im k = some op) : k ∈ im.map (·.1) := by
  induction im with
  | nil => simp [Json.lookupKey] at h
  | cons kv rest ih =>
    by_cases hk : kv.1 = k
    · simp [hk]
    · obtain ⟨a, b⟩ := kv
      simp only at hk
      simp only [Json.lookupKey, if_neg hk] at h
      simp [ih h]

theorem sum_map_single {α : Type} (l : List α) (f : α → Nat) (a : α)
    (hnd : l.Nodup) (ha : a ∈ l) (hfa : f a = 1)
    (hf0 : ∀ x ∈ l, x ≠ a → f x = 0) : (l.map f).sum = 1 := by
  induction l with
  | nil => cases ha
  | cons x xs ih =>
    simp only [List.nodup_cons] at hnd
    simp only [List.map_cons, List.sum_cons]
    rcases List.mem_cons.mp ha with hx | hx
    · subst hx
      rw [hfa]
      have : (xs.map f).sum = 0 := List.sum_eq_zero (by
        intro y hy
        obtain ⟨z, hz, rfl⟩ := List.mem_map.mp hy
        exact hf0 z (List.mem_cons_of_mem _ hz) (fun he => hnd.1 (he ▸ hz)))
      omega
    · rw [hf0 x (List.mem_cons_self _ _) (fun he => hnd.1 (he ▸ hx)),
        ih hnd.2 hx (fun y hy hne => hf0 y (List.mem_cons_of_mem _ hy) hne)]

theorem groupEntries_addEntry_same (bt : List (String × List App.Entry))
    (tag : String) (e : App.Entry) :
    App.groupEntries (App.addEntry bt tag e) tag =
      App.groupEntries bt tag ++ [e] := by
  induction bt with
  | nil => simp [App.addEntry, App.groupEntries]
  | cons g rest ih =>
    obtain ⟨t, es⟩ := g
    by_cases ht : t = tag
    · simp [App.addEntry, App.groupEntries, ht]
    · simp [App.addEntry, App.groupEntries, ht, ih]

theorem mem_groupEntries_addEntry_mono (bt : List (String × List App.Entry))
    (tag' : String) (e' : App.Entry) (tg : String) (e : App.Entry)
    (h : e ∈ App.groupEntries bt tg) :
    e ∈ App.groupEntries (App.addEntry bt tag' e') tg := by
  induction bt with
  | nil => simp [App.groupEntries] at h
  | cons g rest ih =>
    obtain ⟨t, es⟩ := g
    by_cases ht' : t = tag'
    · by_cases ht : t = tg
      · simp only [App.groupEntries, if_pos ht] at h
        simp only [App.addEntry, if_pos ht', App.groupEntries, if_pos ht]
        exact List.mem_append_left _ h
      · simp only [App.groupEntries, if_neg ht] at h
        simp only [App.addEntry, if_pos ht', App.groupEntries, if_neg ht]
        exact h
    · by_cases ht : t = tg
      · simp only [App.groupEntries, if_pos ht] at h
        simp only [App.addEntry, if_neg ht', App.groupEntries, if_pos ht]
        exact h
      · simp only [App.groupEntries, if_neg ht] at h
        simp only [App.addEntry, if_neg ht', App.groupEntries, if_neg ht]
        exact ih h

theorem mem_groupEntries_pass2Step (path : String) (item : Json)
    (bt : List (String × List App.Entry)) (key tg : String) (e : App.Entry)
    (h : e ∈ App.groupEntries bt tg) :
    e ∈ App.groupEntries (App.pass2Step path item bt key) tg := by
  unfold App.pass2Step
  split
  · exact h
  · dsimp only
    split
    · exact mem_groupEntries_addEntry_mono _ _ _ _ _ h
    · exact h

/-- C4 (amended): a non-standard path-item key (outside the fixed method
list, not skipped by the second pass after lowercasing, not an uppercase
alias of a fixed method or of another key of the item) whose value is a
dict carrying a `summary` or `description` yields exactly one normalized
endpoint — grouped under the operation's first tag — when the path item
has neither a `get` nor a `post` key, and yields none at all when `get`
or `post` is present. -/
theorem C4_amended_custom_key_once (doc : Json) (sp : List (String × Json))
    (path k : String) (im : List (String × Json)) (op : Json)
    (hsp : sp = sortByKey (·.1)
      (Json.objEntries (doc.pyGetD "paths" (Json.obj []))))
    (hnd : (sp.map (·.1)).Nodup)
    (hmem : (path, Json.obj im) ∈ sp)
    (hknd : (im.map (·.1)).Nodup)
    (hop : Json.lookupKey im k = some op)
    (hobj : op.isObj = true)
    (hsum : (op.containsKey "summary" || op.containsKey "description") = true)
    (hskip : App.SKIP_KEYS.contains (pyLower k) = false)
    (hupper1 : ∀ mth ∈ App.METHODS, pyUpper mth ≠ pyUpper k)
    (hupper2 : ∀ kv ∈ im, kv.1 ≠ k → pyUpper kv.1 ≠ pyUpper k) :
    List.countP (fun e => e.path == path && e.method == pyUpper k)
        (allEntries (App.buildByTagData doc)) =
      (if (Json.obj im).containsKey "get" || (Json.obj im).containsKey "post"
       then 0 else 1) ∧
    (((Json.obj im).containsKey "get" || (Json.obj im).containsKey "post")
        = false →
      (⟨path, pyUpper k, op, "endpoint-" ++ App.slug (k ++ "-" ++ path)⟩ :
        App.Entry) ∈
        App.groupEntries (App.buildByTagData doc) (App.tagOf2 op)) := by
  have hbt : App.buildByTagData doc =
      App.groupPass2 (App.groupPass1 [] sp) sp := by
    rw [hsp]
    rfl
  have hpa : (Json.obj im).pyGet k = op := pyGet_obj_of_lookup im k op hop
  have hkk : k ∈ im.map (·.1) := mem_keys_of_lookup im k op hop
  have hsplit : ((Json.obj im).containsKey "get" ||
      (Json.obj im).containsKey "post") = false →
      (Json.obj im).containsKey "get" = false ∧
      (Json.obj im).containsKey "post" = false := by
    intro h
    constructor
    · revert h
      cases (Json.obj im).containsKey "get" <;> simp
    · revert h
      cases (Json.obj im).containsKey "post" <;> simp
  have hgate : ((Json.obj im).containsKey "get" ||
      (Json.obj im).containsKey "post") = false →
      ((Json.obj im).isObj && ¬ (Json.obj im).containsKey "get" &&
        ¬ (Json.obj im).containsKey "post") = true := by
    intro h
    obtain ⟨h1, h2⟩ := hsplit h
    rw [h1, h2]
    simp [Json.isObj]
  have hc1 : ∀ pv ∈ sp, (App.METHODS.map
      (pass1Contrib (fun e => e.path == path && e.method == pyUpper k)
        pv)).sum = 0 := by
    intro pv _
    apply List.sum_eq_zero
    intro y hy
    obtain ⟨mth, hmth, rfl⟩ := List.mem_map.mp hy
    unfold pass1Contrib
    split
    · rename_i hcond
      exfalso
      simp only [Bool.and_eq_true, beq_iff_eq] at hcond
      exact hupper1 mth hmth hcond.2.2
    · rfl
  have hc2zero : ∀ pv ∈ sp, pv ≠ (path, Json.obj im) → ∀ key,
      pass2Contrib (fun e => e.path == path && e.method == pyUpper k) pv key
        = 0 := by
    intro pv hpv hne key
    have hne1 : pv.1 ≠ path := by
      intro h1
      exact hne (eq_of_mem_of_nodup_keys sp pv (path, Json.obj im) hnd hpv
        hmem h1)
    unfold pass2Contrib
    split
    · rename_i hcond
      exfalso
      simp only [Bool.and_eq_true, beq_iff_eq] at hcond
      exact hne1 hcond.2.1
    · rfl
  have hc2key : ∀ x ∈ im.map (·.1), x ≠ k →
      pass2Contrib (fun e => e.path == path && e.method == pyUpper k)
        (path, Json.obj im) x = 0 := by
    intro x hx hxk
    obtain ⟨kv, hkv, rfl⟩ := List.mem_map.mp hx
    unfold pass2Contrib
    split
    · rename_i hcond
      exfalso
      simp only [Bool.and_eq_true, beq_iff_eq] at hcond
      exact hupper2 kv hkv hxk hcond.2.2
    · rfl
  have hc2k : pass2Contrib (fun e => e.path == path && e.method == pyUpper k)
      (path, Json.obj im) k = 1 := by
    unfold pass2Contrib
    dsimp only
    rw [hpa]
    have hskip2 : pyLower k ∉ App.SKIP_KEYS := by simpa using hskip
    simp [hskip2, hobj, hsum]
  constructor
  · rw [hbt, countP_groupPass2, countP_groupPass1]
    rw [show allEntries ([] : List (String × List App.Entry)) = [] from rfl,
      List.countP_nil]
    rw [List.sum_eq_zero (l := sp.map (fun pv => (App.METHODS.map
      (pass1Contrib (fun e => e.path == path && e.method == pyUpper k)
        pv)).sum)) (by
      intro y hy
      obtain ⟨pv, hpv, rfl⟩ := List.mem_map.mp hy
      exact hc1 pv hpv)]
    by_cases hgp : ((Json.obj im).containsKey "get" ||
        (Json.obj im).containsKey "post") = true
    · rw [if_pos hgp]
      rw [List.sum_eq_zero (by
        intro y hy
        obtain ⟨pv, hpv, rfl⟩ := List.mem_map.mp hy
        by_cases hpe : pv = (path, Json.obj im)
        · subst hpe
          dsimp only
          split
          · rename_i hgt
            exfalso
            simp only [Bool.and_eq_true, decide_eq_true_eq,
              Bool.not_eq_true] at hgt
            rw [hgt.1.2, hgt.2] at hgp
            simp at hgp
          · rfl
        · have hz : ((Json.keys pv.2).map (pass2Contrib
              (fun e => e.path == path && e.method == pyUpper k) pv)).sum
              = 0 := List.sum_eq_zero (by
            intro z hz'
            obtain ⟨key, _, rfl⟩ := List.mem_map.mp hz'
            exact hc2zero pv hpv hpe key)
          try dsimp only
          rw [hz, ite_self])]
      rfl
    · have hgpf : ((Json.obj im).containsKey "get" ||
          (Json.obj im).containsKey "post") = false := by
        revert hgp
        cases ((Json.obj im).containsKey "get" ||
          (Json.obj im).containsKey "post") <;> simp
      rw [if_neg hgp]
      have hfa : (fun pv : String × Json =>
          if pv.2.isObj && ¬ pv.2.containsKey "get" &&
              ¬ pv.2.containsKey "post" then
            ((Json.keys pv.2).map (pass2Contrib
              (fun e => e.path == path && e.method == pyUpper k) pv)).sum
          else 0) (path, Json.obj im) = 1 := by
        dsimp only
        rw [if_pos (hgate hgpf)]
        rw [show Json.keys (Json.obj im) = im.map (·.1) from rfl]
        exact sum_map_single (im.map (·.1)) _ k hknd hkk hc2k hc2key
      have hothers : ∀ x ∈ sp, x ≠ (path, Json.obj im) →
          (fun pv : String × Json =>
            if pv.2.isObj && ¬ pv.2.containsKey "get" &&
                ¬ pv.2.containsKey "post" then
              ((Json.keys pv.2).map (pass2Contrib
                (fun e => e.path == path && e.method == pyUpper k) pv)).sum
            else 0) x = 0 := by
        intro pv hpv hne
        have hz : ((Json.keys pv.2).map (pass2Contrib
            (fun e => e.path == path && e.method == pyUpper k) pv)).sum
            = 0 := List.sum_eq_zero (by
          intro z hz'
          obtain ⟨key, _, rfl⟩ := List.mem_map.mp hz'
          exact hc2zero pv hpv hne key)
        try dsimp only
        rw [hz, ite_self]
      rw [sum_map_single sp _ (path, Json.obj im) (hnd.of_map _) hmem hfa
        hothers]
      rfl
  · intro hgpf
    rw [hbt]
    obtain ⟨l1, l2, hsp2⟩ := List.append_of_mem hmem
    rw [hsp2]
    unfold App.groupPass2
    rw [List.foldl_append, List.foldl_cons]
    refine foldl_preserve _ (fun b =>
      (⟨path, pyUpper k, op, "endpoint-" ++ App.slug (k ++ "-" ++ path)⟩ :
        App.Entry) ∈ App.groupEntries b (App.tagOf2 op)) ?_ l2 _ ?_
    · intro b a hb
      dsimp only
      split
      · exact foldl_preserve _ (fun b =>
          (⟨path, pyUpper k, op,
            "endpoint-" ++ App.slug (k ++ "-" ++ path)⟩ : App.Entry) ∈
            App.groupEntries b (App.tagOf2 op))
          (fun b' a' hb' => mem_groupEntries_pass2Step _ _ _ _ _ _ hb') _ _ hb
      · exact hb
    · dsimp only
      rw [if_pos (hgate hgpf)]
      obtain ⟨k1, k2, hk2⟩ := List.append_of_mem hkk
      rw [show Json.keys (Json.obj im) = im.map (·.1) from rfl, hk2,
        List.foldl_append, List.foldl_cons]
      refine foldl_preserve _ (fun b =>
        (⟨path, pyUpper k, op, "endpoint-" ++ App.slug (k ++ "-" ++ path)⟩ :
          App.Entry) ∈ App.groupEntries b (App.tagOf2 op))
        (fun b' a' hb' => mem_groupEntries_pass2Step _ _ _ _ _ _ hb') k2 _ ?_
      have hstep : ∀ b, App.pass2Step path (Json.obj im) b k =
          App.addEntry b (App.tagOf2 op)
            ⟨path, pyUpper k, op, "endpoint-" ++ App.slug (k ++ "-" ++ path)⟩
          := by
        intro b
        unfold App.pass2Step
        rw [if_neg (by rw [hskip]; simp)]
        dsimp only
        rw [hpa]
        rw [if_pos (by rw [hobj, hsum]; rfl)]
      rw [hstep]
      dsimp only
      rw [groupEntries_addEntry_same]
      exact List.mem_append_right _ (by simp)

theorem C4_amended_custom_key_once_witness :
    Json.lookupKey [("put", Json.obj [("summary", Json.str "s")]), ("purge", Json.obj [("summary", Json.str "p")])] "purge" = some (Json.obj [("summary", Json.str "p")]) ∧
    (List.countP (fun e => e.path == "/x" && e.method == pyUpper "purge")
        (allEntries (App.buildByTagData (Json.obj [("paths", Json.obj [("/x", Json.obj [("put", Json.obj [("summary", Json.str "s")]), ("purge", Json.obj [("summary", Json.str "p")])])])]))) =
      (if (Json.obj [("put", Json.obj [("summary", Json.str "s")]), ("purge", Json.obj [("summary", Json.str "p")])]).containsKey "get" ||
          (Json.obj [("put", Json.obj [("summary", Json.str "s")]), ("purge", Json.obj [("summary", Json.str "p")])]).containsKey "post" then 0 else 1) ∧
    (((Json.obj [("put", Json.obj [("summary", Json.str "s")]), ("purge", Json.obj [("summary", Json.str "p")])]).containsKey "get" ||
        (Json.obj [("put", Json.obj [("summary", Json.str "s")]), ("purge", Json.obj [("summary", Json.str "p")])]).containsKey "post") = false →
      (⟨"/x", pyUpper "purge", (Json.obj [("summary", Json.str "p")]),
        "endpoint-" ++ App.slug ("purge" ++ "-" ++ "/x")⟩ : App.Entry) ∈
        App.groupEntries (App.buildByTagData (Json.obj [("paths", Json.obj [("/x", Json.obj [("put", Json.obj [("summary", Json.str "s")]), ("purge", Json.obj [("summary", Json.str "p")])])])])) (App.tagOf2 (Json.obj [("summary", Json.str "p")])))) :=
  ⟨rfl, C4_amended_custom_key_once (Json.obj [("paths", Json.obj [("/x", Json.obj [("put", Json.obj [("summary", Json.str "s")]), ("purge", Json.obj [("summary", Json.str "p")])])])]) [("/x", Json.obj [("put", Json.obj [("summary", Json.str "s")]), ("purge", Json.obj [("summary", Json.str "p")])])] "/x" "purge"
    [("put", Json.obj [("summary", Json.str "s")]), ("purge", Json.obj [("summary", Json.str "p")])] (Json.obj [("summary", Json.str "p")]) rfl (by decide) (List.mem_singleton_self _) (by decide) rfl rfl
    (by decide) (by decide) (by decide) (by decide)⟩
/-! ## Claim theorems -/
/-! ## Claim theorems -/

/-- C9: `endpoint_id` slug generation is deterministic (it is a function of
its input), agrees with the spec's characterization (`slug_spec`, worded
from the spec), and its output contains only lowercase letters, digits,
`-` and `_`. -/
theorem C9_slug_deterministic_charset (s : String) :
    App.slug s = slug_spec s ∧
    ∀ c ∈ (App.slug s).data,
      c.isLower = true ∨ c.isDigit = true ∨ c = '-' ∨ c = '_' := by
  constructor
  · unfold App.slug slug_spec
    have hfun : ∀ d : Char,
        (if (d.isAlphanum || decide (d = '-') || decide (d = '_')) = true
          then d else '-') =
        (if d.isAlphanum = true ∨ d = '-' ∨ d = '_' then d else '-') := by
      intro d
      by_cases h1 : d.isAlphanum = true
      · simp [h1]
      · by_cases h2 : d = '-'
        · simp [h2]
        · by_cases h3 : d = '_'
          · simp [h3]
          · simp [h1, h2, h3]
    exact congrArg stripDash (congrArg String.mk
      (List.map_congr_left (fun d _ => hfun d)))
  · intro c hc
    unfold App.slug stripDash at hc
    set t := ((pyLower s).data.map
      (fun c => if c.isAlphanum || c = '-' || c = '_' then c else '-')) with ht
    have hc1 : c ∈ ((t.dropWhile (· == '-')).reverse.dropWhile (· == '-')).reverse :=
      hc
    rw [List.mem_reverse] at hc1
    have hc2 : c ∈ (t.dropWhile (· == '-')).reverse :=
      (List.dropWhile_sublist _).subset hc1
    rw [List.mem_reverse] at hc2
    have hc3 : c ∈ t := (List.dropWhile_sublist _).subset hc2
    rw [ht, List.mem_map] at hc3
    obtain ⟨d, hd, hde⟩ := hc3
    unfold pyLower at hd
    rw [List.mem_map] at hd
    obtain ⟨d0, _, hd0⟩ := hd
    by_cases hcond : (d.isAlphanum || decide (d = '-') || decide (d = '_')) = true
    · rw [if_pos hcond] at hde
      subst hde
      simp only [Bool.or_eq_true, decide_eq_true_eq] at hcond
      rcases hcond with (ha | h') | h'
      · subst hd0
        rcases toLower_alnum_lower_or_digit d0 ha with h | h
        · exact Or.inl h
        · exact Or.inr (Or.inl h)
      · exact Or.inr (Or.inr (Or.inl h'))
      · exact Or.inr (Or.inr (Or.inr h'))
    · rw [if_neg hcond] at hde
      exact Or.inr (Or.inr (Or.inl hde.symm))

set_option maxRecDepth 20000 in
/-- C5 (counterexample): for the `react-axios` stack the synthesized code
does not contain the full request URL (base_url with trailing slash
stripped, concatenated with path), refuting the claim as stated at
`DELETE /items/{id}` against `https://api.x.com`. -/
theorem C5_counterexample_react_axios_url :
    occursB "https://api.x.com/items/\x7bid\x7d"
      (App.template_example "delete" "/items/\x7bid\x7d" "react-axios" true ""
        "https://api.x.com") = false := by decide

set_option maxRecDepth 100000 in
set_option maxHeartbeats 1000000 in
theorem stackGates_react_fetch : stackGates "react-fetch" = true := by decide

set_option maxRecDepth 100000 in
set_option maxHeartbeats 1000000 in
theorem stackGates_react_axios : stackGates "react-axios" = true := by decide

set_option maxRecDepth 100000 in
set_option maxHeartbeats 1000000 in
theorem stackGates_vue3 : stackGates "vue3" = true := by decide

set_option maxRecDepth 100000 in
set_option maxHeartbeats 1000000 in
theorem stackGates_nextjs : stackGates "nextjs" = true := by decide

set_option maxRecDepth 100000 in
set_option maxHeartbeats 1000000 in
theorem stackGates_angular : stackGates "angular" = true := by decide

set_option maxRecDepth 100000 in
set_option maxHeartbeats 1000000 in
theorem stackGates_svelte : stackGates "svelte" = true := by decide

set_option maxRecDepth 100000 in
set_option maxHeartbeats 1000000 in
theorem stackGates_vanilla : stackGates "vanilla" = true := by decide

set_option maxRecDepth 100000 in
set_option maxHeartbeats 1000000 in
theorem stackGates_react_native : stackGates "react-native" = true := by decide

set_option maxRecDepth 100000 in
set_option maxHeartbeats 1000000 in
theorem stackGates_flutter : stackGates "flutter" = true := by decide

set_option maxRecDepth 100000 in
set_option maxHeartbeats 1000000 in
theorem stackGates_swift_ios : stackGates "swift-ios" = true := by decide

set_option maxRecDepth 100000 in
set_option maxHeartbeats 1000000 in
theorem stackGates_kotlin_android : stackGates "kotlin-android" = true := by decide

/-- C5 (amended): for every stack id, both auth flags and request shapes
covering both body flags, the output carries the Authorization/Bearer
marker iff `needs_auth` and a body-serialization marker iff `has_body`;
every stack except `react-axios` embeds the full request URL and (except
`kotlin-android` with a body, which always issues `.post`) the uppercased
method; `react-axios` embeds the stripped base URL and the path separately
(never their concatenation) and the lowercased method name. -/
theorem C5_amended_example_gates : exampleGates = true := by
  show (App.STACKS.map (·.1)).all stackGates = true
  simp [App.STACKS, stackGates_react_fetch, stackGates_react_axios, stackGates_vue3, stackGates_nextjs, stackGates_angular, stackGates_svelte, stackGates_vanilla, stackGates_react_native, stackGates_flutter, stackGates_swift_ios, stackGates_kotlin_android,
    Bool.and_true, Bool.true_and]

set_option maxRecDepth 20000 in
set_option maxHeartbeats 1000000 in
/-- C10: the document `docC10`, whose single path item holds exactly one
operation object (`options`, carrying a summary, with neither `get` nor
`post` on the path item), is normalized into two identical endpoint
entries: the first grouping pass emits it (`options` is in the fixed
method list) and the second pass emits it again (`options` is missing
from that pass's skip list).  This refutes the at-most-once invariant. -/
theorem C10_options_emitted_twice :
    (allEntries (App.buildByTagData docC10)).map (fun e => (e.method, e.path)) =
      [("OPTIONS", "/x"), ("OPTIONS", "/x")] ∧
    (allEntries (App.buildByTagHtml docC10)).map (fun e => (e.method, e.path)) =
      [("OPTIONS", "/x"), ("OPTIONS", "/x")] := by
  exact ⟨rfl, rfl⟩

set_option maxRecDepth 20000 in
set_option maxHeartbeats 1000000 in
/-- C2 (counterexample): in `docC2` the single `POST` operation's request
body carries only `application/xml` (no recognized JSON media type), yet
the data render reports `has_body = true` — refuting the claimed
media-type condition. -/
theorem C2_counterexample_xml_body :
    (dataEndpointsOf (App.build_api_reference_data 3 docC2 "")).map endpointHasBody =
      [Json.b true] ∧
    requestBodyHasJsonMedia docC2Body = false := by
  exact ⟨rfl, rfl⟩

set_option maxRecDepth 20000 in
set_option maxHeartbeats 1000000 in
/-- C3 (counterexample): for the property `p` of `schemaC3` (a `$ref` to
`T` with its own sibling description `own-desc`, where `T` itself carries
`target-desc`), the HTML projection renders `target-desc` and not the
property's own description — refuting the claimed own-first precedence
for the HTML projection. -/
theorem C3_counterexample_html_resolved_first :
    occursB "own-desc" (App.render_schema_properties 3 schemaC3 docC3 []) = false ∧
    occursB "target-desc" (App.render_schema_properties 3 schemaC3 docC3 []) = true := by
  exact ⟨rfl, rfl⟩

set_option maxRecDepth 20000 in
set_option maxHeartbeats 1000000 in
/-- C4 (counterexample): in `docC4` the path item carries `get` alongside
the custom key `purge` (which has a summary); because the second grouping
pass only runs when the path item has neither `get` nor `post`, `purge`
yields no endpoint at all — refuting "regardless of which standard-method
operations are also present". -/
theorem C4_counterexample_purge_dropped :
    (allEntries (App.buildByTagData docC4)).map (fun e => (e.method, e.path)) =
      [("GET", "/x")] := by
  exact rfl

set_option maxRecDepth 40000 in
set_option maxHeartbeats 2000000 in
/-- C1: the info-level description reaches the HTML output of
`build_api_reference_html` verbatim (wrapped in the overview-description
div), not HTML-escaped: the claim's escaping invariant fails for the
description fields.  (`docC1` has `info.description =
"<script>alert(1)</script>"`.) -/
theorem C1_description_not_escaped :
    occursB ("<div class=\"overview-description\">" ++ xssPayload ++ "</div>")
      (App.build_api_reference_html 1 docC1 "") = true := by
  simp only [App.build_api_reference_html]
  apply occursB_append_left
  apply occursB_append_left
  apply occursB_append_left
  apply occursB_append_right
  decide

